import Mathlib

/-!
# gosocks: a SOCKS5 proxy client (socks.go)

A shallow embedding of `socks.go` and a verification of its handshake.

Modelling conventions.

* Go `string` values are Lean `String`s; the standard-library routines that
  scan them look only at ASCII bytes (the colon, the brackets, the digits),
  so scanning characters and scanning bytes agree.
* A Go `byte` is a `Nat`; `byte(x)` is `x % 256`, `uint16(x)` is `x % 65536`.
* A Go `error` is a `GoError`; the `nil` error is `none`.
* The outside world (TCP transport, DNS resolver) is an `Env`: a family of
  deterministic oracles that answer each call from the history of the calls
  made so far.  Every call that leaves `socks.go` for the outside world is
  appended to a trace of `Event`s, together with its answer.
* A run-time panic (index out of range) is the outcome `Outcome.panic`.
-/

namespace Gosocks

/-! ## Errors, events, environment -/

/-- The two sentinel causes carried by a `*strconv.NumError`:
`strconv.ErrSyntax` and `strconv.ErrRange`. -/
inductive NumErrKind where
  | syn
  | range
deriving DecidableEq

/-- Go error values that occur in `socks.go`. -/
inductive GoError where
  /-- The value of `errors.New(msg)`. -/
  | errorsNew (msg : String)
  /-- A `*net.AddrError` with fields `Err` and `Addr`, from `net.SplitHostPort`. -/
  | addrError (why : String) (addr : String)
  /-- A `*strconv.NumError` with fields `Func`, `Num`, `Err`. -/
  | numError (fn : String) (num : String) (kind : NumErrKind)
  /-- An error value produced by the transport or by the resolver. -/
  | other (code : Nat)
deriving DecidableEq

/-- A handle of an open `net.Conn`. -/
abbrev Conn := Nat

/-- A `net.IP`: a slice of bytes. -/
abbrev IP := List Nat

/-- One call that leaves `socks.go`, with its answer. -/
inductive Event where
  /-- The call `net.Dial(network, address)` and the pair it returned. -/
  | dial (network address : String) (conn : Option Conn) (err : Option GoError)
  /-- The call `conn.Write(b)` and the pair `(n, err)` it returned. -/
  | write (conn : Conn) (b : List Nat) (n : Nat) (err : Option GoError)
  /-- The call `conn.Read(p)` with `len(p) = cap`: the bytes delivered and the error. -/
  | read (conn : Conn) (cap : Nat) (data : List Nat) (err : Option GoError)
  /-- The call `splitHostPort(addr)` made by `dialSocks5`: the target address is parsed. -/
  | parse (addr : String)
  /-- The call `net.LookupIP(host)` and the pair it returned. -/
  | lookupIP (host : String) (ips : List IP) (err : Option GoError)
  /-- The call `conn.Close()`.  No function of `socks.go` makes it. -/
  | close (conn : Conn)
deriving DecidableEq

/-- The outside world.  Each oracle sees the history of events so far. -/
structure Env where
  /-- Answer of `net.Dial(network, address)`: a connection or an error. -/
  dial : String → String → Except GoError Conn
  /-- Answer of `conn.Write(b)`: the pair `(n, err)`. -/
  write : List Event → Conn → List Nat → Nat × Option GoError
  /-- Answer of `conn.Read(p)` for a buffer of the given capacity:
  the bytes the stream has ready and the error of the call. -/
  read : List Event → Conn → Nat → List Nat × Option GoError
  /-- Answer of `net.LookupIP(host)`: the pair `(ips, err)`. -/
  lookupIP : List Event → String → List IP × Option GoError

/-- How a call of `dialSocks5` ends. -/
inductive Outcome where
  /-- Normal return of the pair `(conn, err)`; a `nil` interface is `none`. -/
  | ret (conn : Option Conn) (err : Option GoError)
  /-- A run-time panic. -/
  | panic
deriving DecidableEq

/-- A finished run: its outcome and everything it did to the outside world. -/
structure Run where
  outcome : Outcome
  trace : List Event
deriving DecidableEq

/-! ## Go standard library routines used by `socks.go` -/

/-- Go `strings.IndexByte`: position of the first occurrence of `c`. -/
def indexByte : List Char → Char → Option Nat
  | [], _ => none
  | x :: xs, c => if x = c then some 0 else (indexByte xs c).map (· + 1)

/-- Go `strings.LastIndexByte`: position of the last occurrence of `c`. -/
def lastIndexByte : List Char → Char → Option Nat
  | [], _ => none
  | x :: xs, c =>
    match lastIndexByte xs c with
    | some i => some (i + 1)
    | none => if x = c then some 0 else none

/-- Result triple `(host, port, err)` of `net.SplitHostPort`. -/
structure SplitResult where
  host : String
  port : String
  err : Option GoError
deriving DecidableEq

/-- The helper `addrErr` of `net.SplitHostPort`: both strings empty, an `AddrError`. -/
def addrErr (addr why : String) : SplitResult :=
  ⟨"", "", some (GoError.addrError why addr)⟩

/-- The tail of `net.SplitHostPort`, after `host`, `j` and `k` are known:
no further bracket may occur, and the port is what follows the last colon. -/
def splitTail (hostport : String) (i : Nat) (host : List Char) (j k : Nat) : SplitResult :=
  if (indexByte (hostport.data.drop j) '[').isSome then
    addrErr hostport "unexpected '[' in address"
  else if (indexByte (hostport.data.drop k) ']').isSome then
    addrErr hostport "unexpected ']' in address"
  else
    ⟨String.mk host, String.mk (hostport.data.drop (i + 1)), none⟩

/-- Go standard library `net.SplitHostPort(hostport)`. -/
def netSplitHostPort (hostport : String) : SplitResult :=
  match lastIndexByte hostport.data ':' with
  | none => addrErr hostport "missing port in address"
  | some i =>
    if hostport.data.head? = some '[' then
      match indexByte hostport.data ']' with
      | none => addrErr hostport "missing ']' in address"
      | some e =>
        if e + 1 = hostport.data.length then
          addrErr hostport "missing port in address"
        else if e + 1 = i then
          splitTail hostport i ((hostport.data.take e).drop 1) 1 (e + 1)
        else if hostport.data[e + 1]? = some ':' then
          addrErr hostport "too many colons in address"
        else
          addrErr hostport "missing port in address"
    else
      if (indexByte (hostport.data.take i) ':').isSome then
        addrErr hostport "too many colons in address"
      else
        splitTail hostport i (hostport.data.take i) 0 0

/-- The digit loop of `strconv.ParseUint(s0, 10, 16)` over the remaining
characters, with the value `n` accumulated so far.  A character that is not a
decimal digit is a syntax error (letters are digits of value at least 10, not
below the base); a value above `maxVal = 65535` is a range error, which
returns `maxVal`. -/
def parseUintLoop (s0 : String) : List Char → Nat → Nat × Option GoError
  | [], n => (n, none)
  | c :: cs, n =>
    if c.isDigit then
      if n ≥ 18446744073709551615 / 10 + 1 then
        (65535, some (GoError.numError "ParseUint" s0 NumErrKind.range))
      else if n * 10 + (c.toNat - 48) > 65535 then
        (65535, some (GoError.numError "ParseUint" s0 NumErrKind.range))
      else
        parseUintLoop s0 cs (n * 10 + (c.toNat - 48))
    else
      (0, some (GoError.numError "ParseUint" s0 NumErrKind.syn))

/-- Go standard library `strconv.ParseUint(s, 10, 16)`. -/
def strconvParseUint (s : String) : Nat × Option GoError :=
  if s.data = [] then
    (0, some (GoError.numError "ParseUint" s NumErrKind.syn))
  else
    parseUintLoop s s.data 0

/-- Go standard library `net.IP.To4`: the 4-byte form of an address, or `nil`. -/
def To4 (ip : IP) : Option IP :=
  if ip.length = 4 then some ip
  else if ip.length = 16 ∧ (ip.take 10).all (· == 0) ∧ ip[10]? = some 255 ∧ ip[11]? = some 255 then
    some ((ip.drop 12).take 4)
  else none

/-! ## The outside-world calls, recorded in the trace -/

/-- Result of a stream operation: bytes, error, extended trace. -/
structure Resp where
  resp : List Nat
  err : Option GoError
  trace : List Event
deriving DecidableEq

/-- Result of `conn.Read(p)`: count, buffer after the call, error, trace. -/
structure ReadResult where
  n : Nat
  buf : List Nat
  err : Option GoError
  trace : List Event

/-- The call `conn.Write(b)`: returns `(n, err)` and records the call. -/
def connWrite (env : Env) (tr : List Event) (conn : Conn) (b : List Nat) :
    Nat × Option GoError × List Event :=
  let r := env.write tr conn b
  (r.1, r.2, tr ++ [Event.write conn b r.1 r.2])

/-- The call `conn.Read(p)`: the stream delivers at most `len(p)` bytes into the
front of `p` and reports how many (`0 <= n <= len(p)`, the `io.Reader` contract). -/
def connRead (env : Env) (tr : List Event) (conn : Conn) (p : List Nat) : ReadResult :=
  let r := env.read tr conn p.length
  let data := r.1.take p.length
  ⟨data.length, data ++ p.drop data.length, r.2,
    tr ++ [Event.read conn p.length data r.2]⟩

/-- The call `net.LookupIP(host)`: returns `(ips, err)` and records the call. -/
def netLookupIP (env : Env) (tr : List Event) (host : String) :
    List IP × Option GoError × List Event :=
  let r := env.lookupIP tr host
  (r.1, r.2, tr ++ [Event.lookupIP host r.1 r.2])

/-! ## socks.go -/

/-- `readAll` (socks.go:127): one `Read` into a fresh 1024-byte buffer,
sliced to the count read. -/
def readAll (env : Env) (tr : List Event) (conn : Conn) : Resp :=
  let resp := List.replicate 1024 0
  let r := connRead env tr conn resp
  ⟨r.buf.take r.n, r.err, r.trace⟩

/-- `sendReceive` (socks.go:118): write the request; on a write error return
it with a `nil` response, otherwise return what `readAll` returns. -/
def sendReceive (env : Env) (tr : List Event) (conn : Conn) (req : List Nat) : Resp :=
  let w := connWrite env tr conn req
  match w.2.1 with
  | some e => ⟨[], some e, w.2.2⟩
  | none => readAll env w.2.2 conn

/-- The `range` loop of `LookupIP4` (socks.go:143): the value of `ip` at the
early `return`, or `none` when the loop runs to its end (`ip` is then `nil`). -/
def rangeTo4 : List IP → Option IP
  | [] => none
  | x :: xs =>
    match To4 x with
    | some ip => some ip
    | none => rangeTo4 xs

/-- Result triple of `LookupIP4`: address (`nil` is `none`), error, trace. -/
structure LookupResult where
  ip : Option IP
  err : Option GoError
  trace : List Event
deriving DecidableEq

/-- `LookupIP4` (socks.go:134). -/
def LookupIP4 (env : Env) (tr : List Event) (host : String) : LookupResult :=
  let r := netLookupIP env tr host
  match r.2.1 with
  | some e => ⟨none, some e, r.2.2⟩
  | none =>
    if r.1.length = 0 then
      ⟨none, some (GoError.errorsNew ("Cannot resolve host: " ++ host ++ ".")), r.2.2⟩
    else
      match rangeTo4 r.1 with
      | some ip => ⟨some ip, none, r.2.2⟩
      | none =>
        ⟨none,
          some (GoError.errorsNew ("Cannot resolve IPv4 address of the host: " ++ host ++ ".")),
          r.2.2⟩

/-- Result triple of `splitHostPort`. -/
structure HostPort where
  host : String
  port : Nat
  err : Option GoError
deriving DecidableEq

/-- `splitHostPort` (socks.go:153).  The error of `net.SplitHostPort` is
overwritten by the error of `strconv.ParseUint`; `port = uint16(portInt)`. -/
def splitHostPort (addr : String) : HostPort :=
  let s := netSplitHostPort addr
  let p := strconvParseUint s.port
  ⟨s.host, p.1 % 65536, p.2⟩

/-- The index expression `xs[i]` of a Go slice, followed by the rest `k` of the
function: out of range is a run-time panic. -/
def index (xs : List Nat) (i : Nat) (tr : List Event) (k : Nat → Run) : Run :=
  match xs[i]? with
  | some x => k x
  | none => ⟨Outcome.panic, tr⟩

/-- A Go slice value as a list: the `nil` slice has no elements. -/
def sliceOf (ip : Option IP) : List Nat := ip.getD []

/-- The part of `dialSocks5` from the comment `// detail request` to the end
(socks.go:86-115).  `_err` is the value of `err` on entry: it is never read,
line 87 assigns `err` anew. -/
def detailRequest (env : Env) (conn : Conn) (targetAddr : String)
    (_err : Option GoError) (tr : List Event) : Run :=
  let tr1 := tr ++ [Event.parse targetAddr]
  let hp := splitHostPort targetAddr
  match hp.err with
  | some e => ⟨Outcome.ret (some conn) (some e), tr1⟩
  | none =>
    let l := LookupIP4 env tr1 hp.host
    match l.err with
    | some e => ⟨Outcome.ret (some conn) (some e), l.trace⟩
    | none =>
      index (sliceOf l.ip) 0 l.trace fun ip0 =>
      index (sliceOf l.ip) 1 l.trace fun ip1 =>
      index (sliceOf l.ip) 2 l.trace fun ip2 =>
      index (sliceOf l.ip) 3 l.trace fun ip3 =>
      let req := [5, 1, 0, 1, ip0, ip1, ip2, ip3] ++ [(hp.port / 256) % 256, hp.port % 256]
      let r := sendReceive env l.trace conn req
      match r.err with
      | some e => ⟨Outcome.ret (some conn) (some e), r.trace⟩
      | none =>
        if r.resp.length ≠ 10 then
          ⟨Outcome.ret (some conn)
            (some (GoError.errorsNew "Server does not respond properly.")), r.trace⟩
        else
          index r.resp 1 r.trace fun s =>
          if s ≠ 0 then
            ⟨Outcome.ret (some conn)
              (some (GoError.errorsNew "Can't complete SOCKS5 connection.")), r.trace⟩
          else
            ⟨Outcome.ret (some conn) none, r.trace⟩

/-- `dialSocks5` (socks.go:62).  In the negotiation-reply chain only the last
branch returns; the first two assign `err` and fall through to the detail
request. -/
def dialSocks5 (env : Env) (proxy targetAddr : String) : Run :=
  match env.dial "tcp" proxy with
  | Except.error e => ⟨Outcome.ret none (some e), [Event.dial "tcp" proxy none (some e)]⟩
  | Except.ok conn =>
    let r := sendReceive env [Event.dial "tcp" proxy (some conn) none] conn [5, 1, 0]
    match r.err with
    | some e => ⟨Outcome.ret (some conn) (some e), r.trace⟩
    | none =>
      if r.resp.length ≠ 2 then
        detailRequest env conn targetAddr
          (some (GoError.errorsNew "Server does not respond properly.")) r.trace
      else
        index r.resp 0 r.trace fun v =>
        if v ≠ 5 then
          detailRequest env conn targetAddr
            (some (GoError.errorsNew "Server does not support Socks 5.")) r.trace
        else
          index r.resp 1 r.trace fun m =>
          if m ≠ 0 then
            ⟨Outcome.ret (some conn)
              (some (GoError.errorsNew "socks method negotiation failed.")), r.trace⟩
          else
            detailRequest env conn targetAddr none r.trace

/-- `DialSocks5Proxy` (socks.go:56): the dial function for a fixed proxy; its
first argument is the blank identifier. -/
def DialSocks5Proxy (env : Env) (proxy : String) : String → String → Run :=
  fun _ targetAddr => dialSocks5 env proxy targetAddr

/-! ## Reading a trace -/

/-- The operations on the byte stream: the `Write`, `Read` and `Close` events. -/
def streamOps (tr : List Event) : List Event :=
  tr.filter fun e =>
    match e with
    | Event.write _ _ _ _ => true
    | Event.read _ _ _ _ => true
    | Event.close _ => true
    | _ => false

/-- The payloads written to the stream, in order. -/
def writesOf (tr : List Event) : List (List Nat) :=
  tr.filterMap fun e =>
    match e with
    | Event.write _ b _ _ => some b
    | _ => none

/-- The answers of the reads on the stream, in order: bytes and error. -/
def readsOf (tr : List Event) : List (List Nat × Option GoError) :=
  tr.filterMap fun e =>
    match e with
    | Event.read _ _ d err => some (d, err)
    | _ => none

/-- The resolver queries, in order: host asked, addresses and error answered. -/
def lookupsOf (tr : List Event) : List (String × List IP × Option GoError) :=
  tr.filterMap fun e =>
    match e with
    | Event.lookupIP h ips err => some (h, ips, err)
    | _ => none

/-- The target addresses parsed, in order. -/
def parsesOf (tr : List Event) : List String :=
  tr.filterMap fun e =>
    match e with
    | Event.parse a => some a
    | _ => none

/-- The kind of call an event records. -/
inductive EventKind where
  | dial
  | write
  | read
  | parse
  | lookupIP
  | close
deriving DecidableEq

/-- The kind of an event, without its arguments and answer. -/
def Event.kind : Event → EventKind
  | Event.dial _ _ _ _ => EventKind.dial
  | Event.write _ _ _ _ => EventKind.write
  | Event.read _ _ _ _ => EventKind.read
  | Event.parse _ => EventKind.parse
  | Event.lookupIP _ _ _ => EventKind.lookupIP
  | Event.close _ => EventKind.close

/-- The error the outside world reported in an event, if any. -/
def Event.err : Event → Option GoError
  | Event.dial _ _ _ e => e
  | Event.write _ _ _ e => e
  | Event.read _ _ _ e => e
  | Event.parse _ => none
  | Event.lookupIP _ _ e => e
  | Event.close _ => none

/-! ## Specification-side notions -/

/-- The first address of a resolver answer, in the order answered, that has an
IPv4 form, in that form. -/
def firstIPv4 (ips : List IP) : Option IP := (ips.filterMap To4).head?

/-- One step of reading a decimal numeral: append the digit `c` to the value `n`. -/
def digitStep (n : Nat) (c : Char) : Nat := n * 10 + (c.toNat - 48)

/-- The number a string of decimal digits denotes. -/
def decimalValue (cs : List Char) : Nat := cs.foldl digitStep 0

/-- The port part of an address is an unsigned decimal integer in the range
0..65535: at least one character, decimal digits only (no sign), value at most 65535. -/
def IsPort (s : String) : Prop :=
  s.data ≠ [] ∧ (∀ c ∈ s.data, c.isDigit = true) ∧ decimalValue s.data ≤ 65535

instance (s : String) : Decidable (IsPort s) := by
  unfold IsPort
  infer_instance

/-- The address has a valid numeric port: it splits into a host part and a
port part, and the port part is an unsigned decimal integer in 0..65535. -/
def ValidTarget (addr : String) : Prop :=
  (netSplitHostPort addr).err = none ∧ IsPort (netSplitHostPort addr).port

instance (addr : String) : Decidable (ValidTarget addr) := by
  unfold ValidTarget
  infer_instance

/-! ## Concrete environments -/

/-- A scripted world: the proxy is reached with handle 7, every write is
complete, the first read delivers `first`, every later read delivers `second`,
and the resolver answers `ips` for every host; no call reports an error. -/
def scriptEnv (first second : List Nat) (ips : List IP) : Env where
  dial := fun _ _ => Except.ok 7
  write := fun _ _ b => (b.length, none)
  read := fun tr _ _ => if (readsOf tr).length = 0 then (first, none) else (second, none)
  lookupIP := fun _ _ => (ips, none)

/-- A proxy that accepts everything: first reply `05 00`, then the 10-byte
success reply; the resolver answers `93.184.216.34`. -/
def okEnv : Env := scriptEnv [5, 0] [5, 0, 0, 1, 0, 0, 0, 0, 0, 0] [[93, 184, 216, 34]]

/-- A world whose transport fails: the proxy is reached with handle 7; the
`k`-th operation on the stream (counted from 0) reports the error `e`, a read
still delivering `data`; every other write is complete, the first read delivers
`05 00`, later reads the 10-byte success reply; the resolver answers
`93.184.216.34`. -/
def failEnv (k : Nat) (data : List Nat) (e : GoError) : Env where
  dial := fun _ _ => Except.ok 7
  write := fun tr _ b =>
    if (streamOps tr).length = k then (0, some e) else (b.length, none)
  read := fun tr _ _ =>
    if (streamOps tr).length = k then (data, some e)
    else if (readsOf tr).length = 0 then ([5, 0], none)
    else ([5, 0, 0, 1, 0, 0, 0, 0, 0, 0], none)
  lookupIP := fun _ _ => ([[93, 184, 216, 34]], none)

/-! ## The control-flow paths of the handshake -/

/-- The runs the detail request (socks.go:86-115) can make when entered with
trace `tr`: one constructor per exit of the code, with the oracle answers that
lead there and the trace produced. -/
inductive DetailPath (env : Env) (conn : Conn) (t : String) (tr : List Event) : Run → Prop
  /-- Line 89: `splitHostPort` failed. -/
  | parseFail (e : GoError)
      (hp : (splitHostPort t).err = some e) :
      DetailPath env conn t tr ⟨Outcome.ret (some conn) (some e), tr ++ [Event.parse t]⟩
  /-- Line 93: `LookupIP4` failed. -/
  | lookupFail (host : String) (port : Nat) (ips : List IP) (le : Option GoError) (e : GoError)
      (hp : splitHostPort t = ⟨host, port, none⟩)
      (hl : env.lookupIP (tr ++ [Event.parse t]) host = (ips, le))
      (he : (LookupIP4 env (tr ++ [Event.parse t]) host).err = some e) :
      DetailPath env conn t tr
        ⟨Outcome.ret (some conn) (some e), tr ++ [Event.parse t, Event.lookupIP host ips le]⟩
  /-- Line 108, the `Write` of the CONNECT request failed. -/
  | writeFail (host : String) (port : Nat) (ips : List IP) (a0 a1 a2 a3 n : Nat) (e : GoError)
      (hp : splitHostPort t = ⟨host, port, none⟩)
      (hl : env.lookupIP (tr ++ [Event.parse t]) host = (ips, none))
      (hip : rangeTo4 ips = some [a0, a1, a2, a3])
      (hw : env.write (tr ++ [Event.parse t, Event.lookupIP host ips none]) conn
        [5, 1, 0, 1, a0, a1, a2, a3, port / 256 % 256, port % 256] = (n, some e)) :
      DetailPath env conn t tr
        ⟨Outcome.ret (some conn) (some e),
          tr ++ [Event.parse t, Event.lookupIP host ips none,
            Event.write conn [5, 1, 0, 1, a0, a1, a2, a3, port / 256 % 256, port % 256]
              n (some e)]⟩
  /-- Line 108, the `Read` of the CONNECT reply failed. -/
  | readFail (host : String) (port : Nat) (ips : List IP) (a0 a1 a2 a3 n : Nat)
      (raw : List Nat) (e : GoError)
      (hp : splitHostPort t = ⟨host, port, none⟩)
      (hl : env.lookupIP (tr ++ [Event.parse t]) host = (ips, none))
      (hip : rangeTo4 ips = some [a0, a1, a2, a3])
      (hw : env.write (tr ++ [Event.parse t, Event.lookupIP host ips none]) conn
        [5, 1, 0, 1, a0, a1, a2, a3, port / 256 % 256, port % 256] = (n, none))
      (hr : env.read (tr ++ [Event.parse t, Event.lookupIP host ips none,
        Event.write conn [5, 1, 0, 1, a0, a1, a2, a3, port / 256 % 256, port % 256] n none])
        conn 1024 = (raw, some e)) :
      DetailPath env conn t tr
        ⟨Outcome.ret (some conn) (some e),
          tr ++ [Event.parse t, Event.lookupIP host ips none,
            Event.write conn [5, 1, 0, 1, a0, a1, a2, a3, port / 256 % 256, port % 256] n none,
            Event.read conn 1024 (raw.take 1024) (some e)]⟩
  /-- Lines 109-115: the CONNECT reply `d` was read; the error returned is
  decided by its length and its byte 1 alone. -/
  | replied (host : String) (port : Nat) (ips : List IP) (a0 a1 a2 a3 n : Nat)
      (raw : List Nat) (err : Option GoError)
      (hp : splitHostPort t = ⟨host, port, none⟩)
      (hl : env.lookupIP (tr ++ [Event.parse t]) host = (ips, none))
      (hip : rangeTo4 ips = some [a0, a1, a2, a3])
      (hw : env.write (tr ++ [Event.parse t, Event.lookupIP host ips none]) conn
        [5, 1, 0, 1, a0, a1, a2, a3, port / 256 % 256, port % 256] = (n, none))
      (hr : env.read (tr ++ [Event.parse t, Event.lookupIP host ips none,
        Event.write conn [5, 1, 0, 1, a0, a1, a2, a3, port / 256 % 256, port % 256] n none])
        conn 1024 = (raw, none))
      (herr : err =
        if (raw.take 1024).length ≠ 10 then
          some (GoError.errorsNew "Server does not respond properly.")
        else if (raw.take 1024)[1]? ≠ some 0 then
          some (GoError.errorsNew "Can't complete SOCKS5 connection.")
        else none) :
      DetailPath env conn t tr
        ⟨Outcome.ret (some conn) err,
          tr ++ [Event.parse t, Event.lookupIP host ips none,
            Event.write conn [5, 1, 0, 1, a0, a1, a2, a3, port / 256 % 256, port % 256] n none,
            Event.read conn 1024 (raw.take 1024) none]⟩

/-- The runs `dialSocks5` can make: one constructor per exit of the
negotiation phase, and one for the runs that go on to the detail request. -/
inductive DialPath (env : Env) (proxy t : String) : Run → Prop
  /-- Line 66: `net.Dial` failed. -/
  | dialFail (e : GoError)
      (hd : env.dial "tcp" proxy = Except.error e) :
      DialPath env proxy t ⟨Outcome.ret none (some e), [Event.dial "tcp" proxy none (some e)]⟩
  /-- Line 77, the `Write` of the negotiation request failed. -/
  | writeFail (conn : Conn) (n : Nat) (e : GoError)
      (hd : env.dial "tcp" proxy = Except.ok conn)
      (hw : env.write [Event.dial "tcp" proxy (some conn) none] conn [5, 1, 0] = (n, some e)) :
      DialPath env proxy t
        ⟨Outcome.ret (some conn) (some e),
          [Event.dial "tcp" proxy (some conn) none, Event.write conn [5, 1, 0] n (some e)]⟩
  /-- Line 77, the `Read` of the negotiation reply failed. -/
  | readFail (conn : Conn) (n : Nat) (raw : List Nat) (e : GoError)
      (hd : env.dial "tcp" proxy = Except.ok conn)
      (hw : env.write [Event.dial "tcp" proxy (some conn) none] conn [5, 1, 0] = (n, none))
      (hr : env.read [Event.dial "tcp" proxy (some conn) none, Event.write conn [5, 1, 0] n none]
        conn 1024 = (raw, some e)) :
      DialPath env proxy t
        ⟨Outcome.ret (some conn) (some e),
          [Event.dial "tcp" proxy (some conn) none, Event.write conn [5, 1, 0] n none,
            Event.read conn 1024 (raw.take 1024) (some e)]⟩
  /-- Line 84: the reply is `05 m` with `m` non-zero, the method is rejected. -/
  | rejected (conn : Conn) (n : Nat) (raw : List Nat) (m : Nat)
      (hd : env.dial "tcp" proxy = Except.ok conn)
      (hw : env.write [Event.dial "tcp" proxy (some conn) none] conn [5, 1, 0] = (n, none))
      (hr : env.read [Event.dial "tcp" proxy (some conn) none, Event.write conn [5, 1, 0] n none]
        conn 1024 = (raw, none))
      (hd2 : raw.take 1024 = [5, m])
      (hm : m ≠ 0) :
      DialPath env proxy t
        ⟨Outcome.ret (some conn) (some (GoError.errorsNew "socks method negotiation failed.")),
          [Event.dial "tcp" proxy (some conn) none, Event.write conn [5, 1, 0] n none,
            Event.read conn 1024 [5, m] none]⟩
  /-- Line 87 is reached: the reply has the wrong length, or the wrong version,
  or is `05 00`; the run is a run of the detail request. -/
  | detail (conn : Conn) (n : Nat) (raw : List Nat) (r : Run)
      (hd : env.dial "tcp" proxy = Except.ok conn)
      (hw : env.write [Event.dial "tcp" proxy (some conn) none] conn [5, 1, 0] = (n, none))
      (hr : env.read [Event.dial "tcp" proxy (some conn) none, Event.write conn [5, 1, 0] n none]
        conn 1024 = (raw, none))
      (hacc : (raw.take 1024).length ≠ 2 ∨ (raw.take 1024)[0]? ≠ some 5 ∨ raw.take 1024 = [5, 0])
      (hdet : DetailPath env conn t
        [Event.dial "tcp" proxy (some conn) none, Event.write conn [5, 1, 0] n none,
          Event.read conn 1024 (raw.take 1024) none] r) :
      DialPath env proxy t r

/-! ## Basic facts about the model -/

theorem connRead_eq (env : Env) (tr : List Event) (conn : Conn) (p : List Nat) :
    connRead env tr conn p =
      ⟨((env.read tr conn p.length).1.take p.length).length,
        (env.read tr conn p.length).1.take p.length ++
          p.drop ((env.read tr conn p.length).1.take p.length).length,
        (env.read tr conn p.length).2,
        tr ++ [Event.read conn p.length ((env.read tr conn p.length).1.take p.length)
          (env.read tr conn p.length).2]⟩ := rfl

theorem readAll_eq (env : Env) (tr : List Event) (conn : Conn) :
    readAll env tr conn =
      ⟨(env.read tr conn 1024).1.take 1024, (env.read tr conn 1024).2,
        tr ++ [Event.read conn 1024 ((env.read tr conn 1024).1.take 1024)
          (env.read tr conn 1024).2]⟩ := by
  show Resp.mk _ _ _ = _
  simp only [connRead_eq, List.length_replicate, List.take_left']

theorem sendReceive_write_err (env : Env) (tr : List Event) (conn : Conn) (req : List Nat)
    (n : Nat) (e : GoError) (hw : env.write tr conn req = (n, some e)) :
    sendReceive env tr conn req = ⟨[], some e, tr ++ [Event.write conn req n (some e)]⟩ := by
  simp [sendReceive, connWrite, hw]

theorem sendReceive_write_ok (env : Env) (tr : List Event) (conn : Conn) (req : List Nat)
    (n : Nat) (raw : List Nat) (re : Option GoError)
    (hw : env.write tr conn req = (n, none))
    (hr : env.read (tr ++ [Event.write conn req n none]) conn 1024 = (raw, re)) :
    sendReceive env tr conn req =
      ⟨raw.take 1024, re,
        tr ++ [Event.write conn req n none, Event.read conn 1024 (raw.take 1024) re]⟩ := by
  simp [sendReceive, connWrite, hw, readAll_eq, hr]

theorem To4_length (x ip : IP) (h : To4 x = some ip) : ip.length = 4 := by
  unfold To4 at h
  split at h
  · simp at h; subst h; assumption
  · split at h
    · rename_i h16
      simp at h
      subst h
      simp [h16.1]
    · simp at h

theorem rangeTo4_length (ips : List IP) (ip : IP) (h : rangeTo4 ips = some ip) : ip.length = 4 := by
  induction ips with
  | nil => simp [rangeTo4] at h
  | cons x xs ih =>
    unfold rangeTo4 at h
    split at h
    · rename_i y hy
      simp at h; subst h
      exact To4_length x _ hy
    · exact ih h

theorem LookupIP4_of_err (env : Env) (tr : List Event) (host : String) (ips : List IP)
    (e : GoError) (hl : env.lookupIP tr host = (ips, some e)) :
    LookupIP4 env tr host = ⟨none, some e, tr ++ [Event.lookupIP host ips (some e)]⟩ := by
  simp [LookupIP4, netLookupIP, hl]

theorem LookupIP4_of_nil (env : Env) (tr : List Event) (host : String)
    (hl : env.lookupIP tr host = ([], none)) :
    LookupIP4 env tr host =
      ⟨none, some (GoError.errorsNew ("Cannot resolve host: " ++ host ++ ".")),
        tr ++ [Event.lookupIP host [] none]⟩ := by
  simp [LookupIP4, netLookupIP, hl]

theorem LookupIP4_of_some (env : Env) (tr : List Event) (host : String) (ips : List IP)
    (ip : IP) (hl : env.lookupIP tr host = (ips, none)) (hip : rangeTo4 ips = some ip) :
    LookupIP4 env tr host = ⟨some ip, none, tr ++ [Event.lookupIP host ips none]⟩ := by
  have hne : ips ≠ [] := by
    intro h0; simp [h0, rangeTo4] at hip
  simp [LookupIP4, netLookupIP, hl, hip, hne]

theorem LookupIP4_of_none (env : Env) (tr : List Event) (host : String) (ips : List IP)
    (hl : env.lookupIP tr host = (ips, none)) (hne : ips ≠ []) (hip : rangeTo4 ips = none) :
    LookupIP4 env tr host =
      ⟨none, some (GoError.errorsNew ("Cannot resolve IPv4 address of the host: " ++ host ++ ".")),
        tr ++ [Event.lookupIP host ips none]⟩ := by
  simp [LookupIP4, netLookupIP, hl, hip, hne]

theorem index_cons_zero (x : Nat) (xs : List Nat) (tr : List Event) (k : Nat → Run) :
    index (x :: xs) 0 tr k = k x := by
  simp [index]

theorem index_cons_succ (x : Nat) (xs : List Nat) (i : Nat) (tr : List Event) (k : Nat → Run) :
    index (x :: xs) (i + 1) tr k = index xs i tr k := by
  simp [index]

theorem detailRequest_path (env : Env) (conn : Conn) (t : String) (e0 : Option GoError)
    (tr : List Event) : DetailPath env conn t tr (detailRequest env conn t e0 tr) := by
  rcases hsp : splitHostPort t with ⟨host, port, pe⟩
  cases pe with
  | some e =>
    have hp : (splitHostPort t).err = some e := by rw [hsp]
    simp only [detailRequest, hsp]
    exact DetailPath.parseFail e hp
  | none =>
    rcases hlk : env.lookupIP (tr ++ [Event.parse t]) host with ⟨ips, le⟩
    cases le with
    | some e =>
      have h4 := LookupIP4_of_err env _ host ips e hlk
      simp only [detailRequest, hsp, h4, List.append_assoc, List.cons_append, List.nil_append]
      exact DetailPath.lookupFail host port ips (some e) e hsp hlk (by rw [h4])
    | none =>
      by_cases hne : ips = []
      · subst hne
        have h4 := LookupIP4_of_nil env _ host hlk
        simp only [detailRequest, hsp, h4, List.append_assoc, List.cons_append, List.nil_append]
        exact DetailPath.lookupFail host port [] none _ hsp hlk (by rw [h4])
      · cases hip : rangeTo4 ips with
        | none =>
          have h4 := LookupIP4_of_none env _ host ips hlk hne hip
          simp only [detailRequest, hsp, h4, List.append_assoc, List.cons_append,
            List.nil_append]
          exact DetailPath.lookupFail host port ips none _ hsp hlk (by rw [h4])
        | some ip =>
          have h4 := LookupIP4_of_some env _ host ips ip hlk hip
          have hlen := rangeTo4_length ips ip hip
          match ip, hlen, hip, h4 with
          | [a0, a1, a2, a3], _, hip, h4 =>
            rcases hw : env.write (tr ++ [Event.parse t, Event.lookupIP host ips none]) conn
              [5, 1, 0, 1, a0, a1, a2, a3, port / 256 % 256, port % 256] with ⟨n, we⟩
            cases we with
            | some e =>
              have hs := sendReceive_write_err env _ conn _ n e hw
              simp only [detailRequest, hsp, h4, sliceOf, Option.getD_some, index_cons_zero,
                index_cons_succ, List.append_assoc, List.cons_append, List.nil_append, hs]
              exact DetailPath.writeFail host port ips a0 a1 a2 a3 n e hsp hlk hip hw
            | none =>
              rcases hr : env.read (tr ++ [Event.parse t, Event.lookupIP host ips none,
                Event.write conn [5, 1, 0, 1, a0, a1, a2, a3, port / 256 % 256, port % 256]
                  n none]) conn 1024 with ⟨raw, re⟩
              have hr2 : env.read (tr ++ [Event.parse t, Event.lookupIP host ips none] ++
                  [Event.write conn [5, 1, 0, 1, a0, a1, a2, a3, port / 256 % 256, port % 256]
                    n none]) conn 1024 = (raw, re) := by
                simpa only [List.append_assoc, List.cons_append, List.nil_append] using hr
              have hs := sendReceive_write_ok env _ conn _ n raw re hw hr2
              simp only [List.append_assoc, List.cons_append, List.nil_append] at hs
              cases re with
              | some e =>
                simp only [detailRequest, hsp, h4, sliceOf, Option.getD_some, index_cons_zero,
                  index_cons_succ, List.append_assoc, List.cons_append, List.nil_append, hs]
                exact DetailPath.readFail host port ips a0 a1 a2 a3 n raw e hsp hlk hip hw hr
              | none =>
                simp only [detailRequest, hsp, h4, sliceOf, Option.getD_some, index_cons_zero,
                  index_cons_succ, List.append_assoc, List.cons_append, List.nil_append, hs]
                by_cases hlen : (raw.take 1024).length ≠ 10
                · rw [if_pos hlen]
                  exact DetailPath.replied host port ips a0 a1 a2 a3 n raw _ hsp hlk hip hw hr
                    (by rw [if_pos hlen])
                · rw [if_neg hlen]
                  have hlen2 : (raw.take 1024).length = 10 := not_not.mp hlen
                  have h1 : 1 < (raw.take 1024).length := by omega
                  have hget : (raw.take 1024)[1]? = some ((raw.take 1024)[1]) :=
                    List.getElem?_eq_getElem h1
                  simp only [index, hget]
                  by_cases hs0 : (raw.take 1024)[1] ≠ 0
                  · rw [if_pos hs0]
                    refine DetailPath.replied host port ips a0 a1 a2 a3 n raw _ hsp hlk hip hw hr ?_
                    rw [if_neg hlen, hget, if_pos (by simpa using hs0)]
                  · rw [if_neg hs0]
                    refine DetailPath.replied host port ips a0 a1 a2 a3 n raw _ hsp hlk hip hw hr ?_
                    rw [if_neg hlen, hget, if_neg (by simpa using hs0)]

theorem dialSocks5_path (env : Env) (proxy t : String) :
    DialPath env proxy t (dialSocks5 env proxy t) := by
  cases hd : env.dial "tcp" proxy with
  | error e =>
    simp only [dialSocks5, hd]
    exact DialPath.dialFail e hd
  | ok conn =>
    rcases hw : env.write [Event.dial "tcp" proxy (some conn) none] conn [5, 1, 0] with ⟨n, we⟩
    cases we with
    | some e =>
      have hs := sendReceive_write_err env _ conn _ n e hw
      simp only [dialSocks5, hd, hs, List.cons_append, List.nil_append]
      exact DialPath.writeFail conn n e hd hw
    | none =>
      rcases hr : env.read [Event.dial "tcp" proxy (some conn) none,
        Event.write conn [5, 1, 0] n none] conn 1024 with ⟨raw, re⟩
      have hr2 : env.read ([Event.dial "tcp" proxy (some conn) none] ++
          [Event.write conn [5, 1, 0] n none]) conn 1024 = (raw, re) := hr
      have hs := sendReceive_write_ok env _ conn _ n raw re hw hr2
      simp only [List.cons_append, List.nil_append] at hs
      cases re with
      | some e =>
        simp only [dialSocks5, hd, hs]
        exact DialPath.readFail conn n raw e hd hw hr
      | none =>
        simp only [dialSocks5, hd, hs]
        by_cases hlen : (raw.take 1024).length ≠ 2
        · rw [if_pos hlen]
          exact DialPath.detail conn n raw _ hd hw hr (Or.inl hlen) (detailRequest_path _ _ _ _ _)
        · rw [if_neg hlen]
          have hlen2 : (raw.take 1024).length = 2 := not_not.mp hlen
          obtain ⟨v, m, hvm⟩ := List.length_eq_two.mp hlen2
          rw [hvm]
          simp only [index_cons_zero, index_cons_succ]
          by_cases hv : v ≠ 5
          · rw [if_pos hv]
            refine DialPath.detail conn n raw _ hd hw hr (Or.inr (Or.inl ?_)) ?_
            · rw [hvm]; simpa using hv
            · rw [hvm]; exact detailRequest_path _ _ _ _ _
          · rw [if_neg hv]
            have hv5 : v = 5 := not_not.mp hv
            subst hv5
            by_cases hm : m ≠ 0
            · rw [if_pos hm]
              exact DialPath.rejected conn n raw m hd hw hr hvm hm
            · rw [if_neg hm]
              have hm0 : m = 0 := not_not.mp hm
              subst hm0
              refine DialPath.detail conn n raw _ hd hw hr (Or.inr (Or.inr hvm)) ?_
              rw [hvm]; exact detailRequest_path _ _ _ _ _

/-! ## Parsing the target address -/

theorem foldl_digitStep_ge (cs : List Char) (n : Nat) : n ≤ cs.foldl digitStep n := by
  induction cs generalizing n with
  | nil => exact Nat.le_refl n
  | cons c cs ih =>
    have h1 : n ≤ digitStep n c := by unfold digitStep; omega
    exact Nat.le_trans h1 (ih (digitStep n c))

theorem parseUintLoop_spec (s0 : String) (cs : List Char) (n : Nat) (hn : n ≤ 65535) :
    ((parseUintLoop s0 cs n).2 = none ↔
      (∀ c ∈ cs, c.isDigit = true) ∧ cs.foldl digitStep n ≤ 65535) ∧
    ((parseUintLoop s0 cs n).2 = none → (parseUintLoop s0 cs n).1 = cs.foldl digitStep n) ∧
    (∀ e, (parseUintLoop s0 cs n).2 = some e → ∃ k, e = GoError.numError "ParseUint" s0 k) := by
  induction cs generalizing n with
  | nil => simp [parseUintLoop, hn]
  | cons c cs ih =>
    unfold parseUintLoop
    by_cases hd : c.isDigit = true
    · have hcut : ¬ (n ≥ 18446744073709551615 / 10 + 1) := by omega
      rw [if_pos hd, if_neg hcut]
      by_cases hov : n * 10 + (c.toNat - 48) > 65535
      · rw [if_pos hov]
        refine ⟨?_, ?_, ?_⟩
        · simp only [List.foldl_cons]
          constructor
          · intro h; simp at h
          · rintro ⟨_, hle⟩
            have := foldl_digitStep_ge cs (digitStep n c)
            unfold digitStep at this hle
            omega
        · intro h; simp at h
        · intro e h; simp at h; exact ⟨_, h.symm⟩
      · rw [if_neg hov]
        have ih' := ih (n * 10 + (c.toNat - 48)) (by omega)
        refine ⟨?_, ?_, ih'.2.2⟩
        · rw [ih'.1]
          simp [List.foldl_cons, digitStep, hd]
        · intro h
          rw [ih'.2.1 h]
          simp [List.foldl_cons, digitStep]
    · rw [if_neg hd]
      refine ⟨?_, ?_, ?_⟩
      · constructor
        · intro h; simp at h
        · rintro ⟨hall, _⟩
          exact absurd (hall c (List.mem_cons_self c cs)) hd
      · intro h; simp at h
      · intro e h; simp at h; exact ⟨_, h.symm⟩

theorem strconvParseUint_spec (s : String) :
    ((strconvParseUint s).2 = none ↔ IsPort s) ∧
    ((strconvParseUint s).2 = none → (strconvParseUint s).1 = decimalValue s.data) ∧
    (∀ e, (strconvParseUint s).2 = some e → ∃ k, e = GoError.numError "ParseUint" s k) := by
  unfold strconvParseUint IsPort decimalValue
  by_cases h0 : s.data = []
  · rw [if_pos h0]
    simp [h0]
  · rw [if_neg h0]
    have h := parseUintLoop_spec s s.data 0 (by omega)
    refine ⟨?_, h.2.1, h.2.2⟩
    rw [h.1]
    simp [h0]

theorem netSplitHostPort_cases (addr : String) :
    (∃ why, netSplitHostPort addr = addrErr addr why) ∨ (netSplitHostPort addr).err = none := by
  unfold netSplitHostPort splitTail
  repeat' split
  all_goals first | exact Or.inl ⟨_, rfl⟩ | exact Or.inr rfl

theorem netSplitHostPort_err (addr : String) (h : (netSplitHostPort addr).err ≠ none) :
    (netSplitHostPort addr).host = "" ∧ (netSplitHostPort addr).port = "" := by
  rcases netSplitHostPort_cases addr with ⟨why, hw⟩ | hok
  · rw [hw]; exact ⟨rfl, rfl⟩
  · exact absurd hok h

theorem not_isPort_empty : ¬ IsPort "" := by
  intro h
  exact h.1 rfl

theorem splitHostPort_err_none_iff (addr : String) :
    (splitHostPort addr).err = none ↔ ValidTarget addr := by
  unfold ValidTarget
  show (strconvParseUint (netSplitHostPort addr).port).2 = none ↔ _
  rw [(strconvParseUint_spec _).1]
  constructor
  · intro hp
    refine ⟨?_, hp⟩
    by_contra hne
    rw [(netSplitHostPort_err addr hne).2] at hp
    exact not_isPort_empty hp
  · exact fun h => h.2

theorem splitHostPort_err_form (addr : String) (e : GoError)
    (h : (splitHostPort addr).err = some e) :
    ∃ k, e = GoError.numError "ParseUint" (netSplitHostPort addr).port k :=
  (strconvParseUint_spec _).2.2 e h

/-! ## Facts shared by the claims -/

/-- The `range` loop of `LookupIP4` finds the first address with an IPv4 form. -/
theorem rangeTo4_eq_firstIPv4 (ips : List IP) : rangeTo4 ips = firstIPv4 ips := by
  induction ips with
  | nil => rfl
  | cons x xs ih =>
    unfold rangeTo4 firstIPv4
    cases hx : To4 x with
    | none => simpa [List.filterMap_cons, hx, firstIPv4] using ih
    | some ip => simp [List.filterMap_cons, hx]

/-- The port returned by `splitHostPort` is a `uint16`. -/
theorem splitHostPort_port_lt (addr : String) : (splitHostPort addr).port < 65536 := by
  unfold splitHostPort
  exact Nat.mod_lt _ (by decide)

/-- The trace of the run against `okEnv`. -/
theorem okEnv_trace :
    (dialSocks5 okEnv "127.0.0.1:1080" "example.com:443").trace =
      [Event.dial "tcp" "127.0.0.1:1080" (some 7) none,
        Event.write 7 [5, 1, 0] 3 none,
        Event.read 7 1024 [5, 0] none,
        Event.parse "example.com:443",
        Event.lookupIP "example.com" [[93, 184, 216, 34]] none,
        Event.write 7 [5, 1, 0, 1, 93, 184, 216, 34, 1, 187] 10 none,
        Event.read 7 1024 [5, 0, 0, 1, 0, 0, 0, 0, 0, 0] none] := by
  set_option maxRecDepth 100000 in decide

/-- The connection a run returns is the one `net.Dial` returned. -/
theorem dialSocks5_conn (env : Env) (proxy t : String) (c : Option Conn) (e : Option GoError)
    (h : (dialSocks5 env proxy t).outcome = Outcome.ret c e) :
    c = (match env.dial "tcp" proxy with
      | Except.ok conn => some conn
      | Except.error _ => none) := by
  have hpath := dialSocks5_path env proxy t
  generalize dialSocks5 env proxy t = R at *
  cases hpath with
  | dialFail e hd => rw [hd]; simp at h; exact h.1.symm
  | writeFail c n e hd hw => rw [hd]; simp at h; exact h.1.symm
  | readFail c n raw e hd hw hr => rw [hd]; simp at h; exact h.1.symm
  | rejected c n raw m hd hw hr hd2 hm => rw [hd]; simp at h; exact h.1.symm
  | detail c n raw r hd hw hr hacc hdet =>
    rw [hd]
    cases hdet <;> (simp at h; exact h.1.symm)

/-- A run that reads a CONNECT reply returns the error that the length and byte 1 of the reply decide. -/
theorem connect_reply_decides (env : Env) (proxy t : String) (d : List Nat)
    (h : (readsOf (dialSocks5 env proxy t).trace)[1]? = some (d, none)) :
    ∃ conn, (dialSocks5 env proxy t).outcome = Outcome.ret (some conn)
      (if d.length ≠ 10 then some (GoError.errorsNew "Server does not respond properly.")
        else if d[1]? ≠ some 0 then some (GoError.errorsNew "Can't complete SOCKS5 connection.")
        else none) := by
  have hpath := dialSocks5_path env proxy t
  generalize dialSocks5 env proxy t = R at *
  cases hpath with
  | dialFail e hd => simp [readsOf] at h
  | writeFail c n e hd hw => simp [readsOf] at h
  | readFail c n raw e hd hw hr => simp [readsOf] at h
  | rejected c n raw m hd hw hr hd2 hm => simp [readsOf] at h
  | detail c n raw r hd hw hr hacc hdet =>
    cases hdet with
    | parseFail e hp => simp [readsOf] at h
    | lookupFail host port ips le e hp hl he => simp [readsOf] at h
    | writeFail host port ips b0 b1 b2 b3 n2 e hp hl hip hw2 => simp [readsOf] at h
    | readFail host port ips b0 b1 b2 b3 n2 raw2 e hp hl hip hw2 hr2 => simp [readsOf] at h
    | replied host port ips b0 b1 b2 b3 n2 raw2 err hp hl hip hw2 hr2 herr =>
      simp [readsOf] at h
      rw [h] at herr
      exact ⟨c, by rw [herr]⟩

/-- The `range` loop of `LookupIP4` runs to its end exactly when no address has an IPv4 form. -/
theorem rangeTo4_eq_none_iff (ips : List IP) :
    rangeTo4 ips = none ↔ ∀ x ∈ ips, To4 x = none := by
  induction ips with
  | nil => simp [rangeTo4]
  | cons x xs ih =>
    unfold rangeTo4
    cases hx : To4 x with
    | none => simpa [hx] using ih
    | some ip => simp [hx]

/-- The `range` loop of `LookupIP4` skips the addresses without an IPv4 form. -/
theorem rangeTo4_append (pre post : List IP) (x ip : IP)
    (hpre : ∀ y ∈ pre, To4 y = none) (hx : To4 x = some ip) :
    rangeTo4 (pre ++ x :: post) = some ip := by
  induction pre with
  | nil => simp [rangeTo4, hx]
  | cons y ys ih =>
    have hy : To4 y = none := hpre y (List.mem_cons_self y ys)
    have := ih (fun z hz => hpre z (List.mem_cons_of_mem y hz))
    simpa [rangeTo4, hy] using this

/-- The three ways `LookupIP4` fails. -/
theorem LookupIP4_err_cases (env : Env) (tr : List Event) (host : String) (ips : List IP)
    (le : Option GoError) (e : GoError)
    (hl : env.lookupIP tr host = (ips, le))
    (he : (LookupIP4 env tr host).err = some e) :
    le = some e ∨
    (le = none ∧ ips = [] ∧ e = GoError.errorsNew ("Cannot resolve host: " ++ host ++ ".")) ∨
    (le = none ∧ ips ≠ [] ∧ rangeTo4 ips = none ∧
      e = GoError.errorsNew ("Cannot resolve IPv4 address of the host: " ++ host ++ ".")) := by
  cases le with
  | some e2 =>
    rw [LookupIP4_of_err env tr host ips e2 hl] at he
    simp at he
    exact Or.inl (by rw [he])
  | none =>
    by_cases hne : ips = []
    · subst hne
      rw [LookupIP4_of_nil env tr host hl] at he
      simp at he
      exact Or.inr (Or.inl ⟨rfl, rfl, he.symm⟩)
    · cases hip : rangeTo4 ips with
      | none =>
        rw [LookupIP4_of_none env tr host ips hl hne hip] at he
        simp at he
        exact Or.inr (Or.inr ⟨rfl, hne, rfl, he.symm⟩)
      | some ip =>
        rw [LookupIP4_of_some env tr host ips ip hl hip] at he
        simp at he

/-- The run of `dialSocks5` when the negotiation reply rejects the method. -/
theorem dialSocks5_of_rejected (env : Env) (proxy t : String) (conn : Conn) (n : Nat)
    (raw : List Nat) (m : Nat)
    (hd : env.dial "tcp" proxy = Except.ok conn)
    (hw : env.write [Event.dial "tcp" proxy (some conn) none] conn [5, 1, 0] = (n, none))
    (hr : env.read [Event.dial "tcp" proxy (some conn) none, Event.write conn [5, 1, 0] n none]
      conn 1024 = (raw, none))
    (hd2 : raw.take 1024 = [5, m]) (hm : m ≠ 0) :
    dialSocks5 env proxy t =
      ⟨Outcome.ret (some conn) (some (GoError.errorsNew "socks method negotiation failed.")),
        [Event.dial "tcp" proxy (some conn) none, Event.write conn [5, 1, 0] n none,
          Event.read conn 1024 [5, m] none]⟩ := by
  have hr2 : env.read ([Event.dial "tcp" proxy (some conn) none] ++
      [Event.write conn [5, 1, 0] n none]) conn 1024 = (raw, none) := hr
  have hs := sendReceive_write_ok env _ conn _ n raw none hw hr2
  simp only [List.cons_append, List.nil_append] at hs
  simp only [dialSocks5, hd, hs, hd2]
  simp [index_cons_zero, index_cons_succ, hm]

/-- The trace of the run against a resolver that answers one IPv6 address. -/
theorem ipv6OnlyEnv_trace :
    (dialSocks5 (scriptEnv [5, 0] [] [[32, 1, 13, 184, 0, 0, 0, 0, 0, 0, 0, 0, 0, 0, 0, 1]])
      "127.0.0.1:1080" "example.com:443").trace =
      [Event.dial "tcp" "127.0.0.1:1080" (some 7) none,
        Event.write 7 [5, 1, 0] 3 none,
        Event.read 7 1024 [5, 0] none,
        Event.parse "example.com:443",
        Event.lookupIP "example.com" [[32, 1, 13, 184, 0, 0, 0, 0, 0, 0, 0, 0, 0, 0, 0, 1]]
          none] := by
  set_option maxRecDepth 100000 in decide

/-- A byte that does not occur has no first index. -/
theorem indexByte_eq_none (l : List Char) (c : Char) (h : c ∉ l) : indexByte l c = none := by
  induction l with
  | nil => rfl
  | cons x xs ih =>
    have hx : x ≠ c := fun e => h (e ▸ List.mem_cons_self x xs)
    have hxs : c ∉ xs := fun m => h (List.mem_cons_of_mem x m)
    simp [indexByte, hx, ih hxs]

/-- A byte that does not occur has no last index. -/
theorem lastIndexByte_eq_none (l : List Char) (c : Char) (h : c ∉ l) :
    lastIndexByte l c = none := by
  induction l with
  | nil => rfl
  | cons x xs ih =>
    have hx : x ≠ c := fun e => h (e ▸ List.mem_cons_self x xs)
    have hxs : c ∉ xs := fun m => h (List.mem_cons_of_mem x m)
    simp [lastIndexByte, hx, ih hxs]

/-- The last colon of `h:p` stands right after `h` when `p` has none. -/
theorem lastIndexByte_append (h p : List Char) (c : Char) (hp : c ∉ p) :
    lastIndexByte (h ++ c :: p) c = some h.length := by
  induction h with
  | nil => simp [lastIndexByte, lastIndexByte_eq_none p c hp]
  | cons x xs ih => simp [lastIndexByte, ih]

/-- The split of `h:p` when neither part has a colon or a bracket. -/
theorem netSplitHostPort_plain (h p : List Char)
    (hh : ':' ∉ h ∧ '[' ∉ h ∧ ']' ∉ h) (hp : ':' ∉ p ∧ '[' ∉ p ∧ ']' ∉ p) :
    netSplitHostPort (String.mk (h ++ ':' :: p)) = ⟨String.mk h, String.mk p, none⟩ := by
  have hhead : (h ++ ':' :: p).head? ≠ some '[' := by
    cases h with
    | nil => simp
    | cons x xs =>
      have : x ≠ '[' := fun e => hh.2.1 (e ▸ List.mem_cons_self x xs)
      simpa using this
  have hb1 : '[' ∉ h ++ ':' :: p := by
    simp [hh.2.1, hp.2.1]
  have hb2 : ']' ∉ h ++ ':' :: p := by
    simp [hh.2.2, hp.2.2]
  simp only [netSplitHostPort, lastIndexByte_append h p ':' hp.1, if_neg hhead,
    List.take_left', indexByte_eq_none h ':' hh.1, splitTail, List.drop_zero,
    indexByte_eq_none _ '[' hb1, indexByte_eq_none _ ']' hb2]
  simp

/-- A decimal digit is neither a colon nor a bracket. -/
theorem isDigit_ne (c : Char) (hc : c.isDigit = true) : c ≠ ':' ∧ c ≠ '[' ∧ c ≠ ']' := by
  refine ⟨?_, ?_, ?_⟩ <;> (intro e; subst e; revert hc; decide)

/-- The trace of a run whose negotiation reply has the wrong version `04 00`. -/
theorem wrongVersionEnv_trace :
    (dialSocks5 (scriptEnv [4, 0] [5, 0, 0, 1, 0, 0, 0, 0, 0, 0] [[10, 1, 2, 3]])
      "127.0.0.1:1080" "example.com:8080").trace =
      [Event.dial "tcp" "127.0.0.1:1080" (some 7) none,
        Event.write 7 [5, 1, 0] 3 none,
        Event.read 7 1024 [4, 0] none,
        Event.parse "example.com:8080",
        Event.lookupIP "example.com" [[10, 1, 2, 3]] none,
        Event.write 7 [5, 1, 0, 1, 10, 1, 2, 3, 31, 144] 10 none,
        Event.read 7 1024 [5, 0, 0, 1, 0, 0, 0, 0, 0, 0] none] := by
  set_option maxRecDepth 100000 in decide

/-- An index expression at or beyond the length of the slice panics. -/
theorem index_out_of_range (xs : List Nat) (i : Nat) (tr : List Event) (k : Nat → Run)
    (h : xs.length ≤ i) : index xs i tr k = ⟨Outcome.panic, tr⟩ := by
  simp [index, List.getElem?_eq_none h]

/-- A message of `LookupIP4` differs from every message that starts with another character. -/
theorem resolveMsg_ne (pre : String) (host msg : String)
    (h : pre.data.head? ≠ msg.data.head?) (hpre : pre.data ≠ []) :
    GoError.errorsNew (pre ++ host ++ ".") ≠ GoError.errorsNew msg := by
  intro e
  injection e with e
  apply h
  have := congrArg String.data e
  simp only [String.data_append] at this
  rw [← this]
  cases hp : pre.data with
  | nil => exact absurd hp hpre
  | cons x xs => simp

/-- The error of `LookupIP4` depends on the answer of the resolver alone. -/
theorem LookupIP4_err_congr (env env2 : Env) (tr tr2 : List Event) (host : String)
    (h : env2.lookupIP tr2 host = env.lookupIP tr host) :
    (LookupIP4 env2 tr2 host).err = (LookupIP4 env tr host).err := by
  simp only [LookupIP4, netLookupIP, h]
  split
  · rfl
  · split
    · rfl
    · split <;> rfl

/-- A path of the detail request is the run of `detailRequest`: the paths are deterministic. -/
theorem detailRequest_of_path (env : Env) (conn : Conn) (t : String) (e0 : Option GoError)
    (tr : List Event) (R : Run) (h : DetailPath env conn t tr R) :
    detailRequest env conn t e0 tr = R := by
  cases h with
  | parseFail e hp => simp only [detailRequest, hp]
  | lookupFail host port ips le e hp hl he =>
    have h4 : LookupIP4 env (tr ++ [Event.parse t]) host =
        ⟨none, some e, tr ++ [Event.parse t] ++ [Event.lookupIP host ips le]⟩ := by
      rcases LookupIP4_err_cases env _ host ips le e hl he with h1 | h2 | h3
      · subst h1
        exact LookupIP4_of_err env _ host ips e hl
      · obtain ⟨rfl, rfl, rfl⟩ := h2
        exact LookupIP4_of_nil env _ host hl
      · obtain ⟨rfl, hne, hr, rfl⟩ := h3
        exact LookupIP4_of_none env _ host ips hl hne hr
    simp only [detailRequest, hp, h4, List.append_assoc, List.cons_append, List.nil_append]
  | writeFail host port ips a0 a1 a2 a3 n e hp hl hip hw =>
    have h4 := LookupIP4_of_some env _ host ips _ hl hip
    have hs := sendReceive_write_err env _ conn _ n e hw
    simp only [detailRequest, hp, h4, sliceOf, Option.getD_some, index_cons_zero,
      index_cons_succ, List.append_assoc, List.cons_append, List.nil_append, hs]
  | readFail host port ips a0 a1 a2 a3 n raw e hp hl hip hw hr =>
    have h4 := LookupIP4_of_some env _ host ips _ hl hip
    have hr2 : env.read (tr ++ [Event.parse t, Event.lookupIP host ips none] ++
        [Event.write conn [5, 1, 0, 1, a0, a1, a2, a3, port / 256 % 256, port % 256]
          n none]) conn 1024 = (raw, some e) := by
      simpa only [List.append_assoc, List.cons_append, List.nil_append] using hr
    have hs := sendReceive_write_ok env _ conn _ n raw (some e) hw hr2
    simp only [List.append_assoc, List.cons_append, List.nil_append] at hs
    simp only [detailRequest, hp, h4, sliceOf, Option.getD_some, index_cons_zero,
      index_cons_succ, List.append_assoc, List.cons_append, List.nil_append, hs]
  | replied host port ips a0 a1 a2 a3 n raw err hp hl hip hw hr herr =>
    have h4 := LookupIP4_of_some env _ host ips _ hl hip
    have hr2 : env.read (tr ++ [Event.parse t, Event.lookupIP host ips none] ++
        [Event.write conn [5, 1, 0, 1, a0, a1, a2, a3, port / 256 % 256, port % 256]
          n none]) conn 1024 = (raw, none) := by
      simpa only [List.append_assoc, List.cons_append, List.nil_append] using hr
    have hs := sendReceive_write_ok env _ conn _ n raw none hw hr2
    simp only [List.append_assoc, List.cons_append, List.nil_append] at hs
    simp only [detailRequest, hp, h4, sliceOf, Option.getD_some, index_cons_zero,
      index_cons_succ, List.append_assoc, List.cons_append, List.nil_append, hs]
    subst herr
    by_cases hlen : (raw.take 1024).length ≠ 10
    · rw [if_pos hlen, if_pos hlen]
    · rw [if_neg hlen, if_neg hlen]
      have hlen2 : (raw.take 1024).length = 10 := not_not.mp hlen
      have h1 : 1 < (raw.take 1024).length := by omega
      have hget : (raw.take 1024)[1]? = some ((raw.take 1024)[1]) :=
        List.getElem?_eq_getElem h1
      simp only [index, hget]
      by_cases hs0 : (raw.take 1024)[1] ≠ 0
      · rw [if_pos hs0, if_pos (by simpa using hs0)]
      · rw [if_neg hs0, if_neg (by simpa using hs0)]

/-- Every run of the detail request starts by parsing the target address. -/
theorem DetailPath_trace (env : Env) (conn : Conn) (t : String) (tr : List Event) (R : Run)
    (h : DetailPath env conn t tr R) : ∃ s, R.trace = tr ++ Event.parse t :: s := by
  cases h with
  | parseFail e hp => exact ⟨[], rfl⟩
  | lookupFail host port ips le e hp hl he => exact ⟨_, rfl⟩
  | writeFail host port ips a0 a1 a2 a3 n e hp hl hip hw => exact ⟨_, rfl⟩
  | readFail host port ips a0 a1 a2 a3 n raw e hp hl hip hw hr => exact ⟨_, rfl⟩
  | replied host port ips a0 a1 a2 a3 n raw err hp hl hip hw hr herr => exact ⟨_, rfl⟩

/-- Two worlds that answer alike after their respective histories make the same detail request. -/
theorem detailRequest_agree (env env2 : Env) (conn : Conn) (t : String)
    (e1 e2 : Option GoError) (tr1 tr2 : List Event)
    (hw : ∀ s b, env2.write (tr2 ++ s) conn b = env.write (tr1 ++ s) conn b)
    (hr : ∀ s k, env2.read (tr2 ++ s) conn k = env.read (tr1 ++ s) conn k)
    (hl : ∀ s h, env2.lookupIP (tr2 ++ s) h = env.lookupIP (tr1 ++ s) h) :
    ∃ o s, detailRequest env conn t e1 tr1 = ⟨o, tr1 ++ Event.parse t :: s⟩ ∧
      detailRequest env2 conn t e2 tr2 = ⟨o, tr2 ++ Event.parse t :: s⟩ := by
  have p := detailRequest_path env conn t e1 tr1
  generalize detailRequest env conn t e1 tr1 = R at p ⊢
  cases p with
  | parseFail e hp =>
    exact ⟨_, [], rfl, detailRequest_of_path env2 conn t e2 tr2 _ (DetailPath.parseFail e hp)⟩
  | lookupFail host port ips le e hp hl1 he =>
    exact ⟨_, [Event.lookupIP host ips le], rfl,
      detailRequest_of_path env2 conn t e2 tr2 _
        (DetailPath.lookupFail host port ips le e hp ((hl _ _).trans hl1)
          ((LookupIP4_err_congr env env2 _ _ host (hl _ _)).trans he))⟩
  | writeFail host port ips a0 a1 a2 a3 n e hp hl1 hip hw1 =>
    exact ⟨_, _, rfl,
      detailRequest_of_path env2 conn t e2 tr2 _
        (DetailPath.writeFail host port ips a0 a1 a2 a3 n e hp ((hl _ _).trans hl1) hip
          ((hw _ _).trans hw1))⟩
  | readFail host port ips a0 a1 a2 a3 n raw e hp hl1 hip hw1 hr1 =>
    exact ⟨_, _, rfl,
      detailRequest_of_path env2 conn t e2 tr2 _
        (DetailPath.readFail host port ips a0 a1 a2 a3 n raw e hp ((hl _ _).trans hl1) hip
          ((hw _ _).trans hw1) ((hr _ _).trans hr1))⟩
  | replied host port ips a0 a1 a2 a3 n raw err hp hl1 hip hw1 hr1 herr =>
    exact ⟨_, _, rfl,
      detailRequest_of_path env2 conn t e2 tr2 _
        (DetailPath.replied host port ips a0 a1 a2 a3 n raw err hp ((hl _ _).trans hl1) hip
          ((hw _ _).trans hw1) ((hr _ _).trans hr1) herr)⟩

/-- Where the two messages of the negotiation phase can come from when a run returns them: the outside world reported that very error in the last call, or, for the first message, line 110 created it after a CONNECT reply of wrong length. -/
theorem negotiation_errors_provenance (env : Env) (proxy t : String) (c : Option Conn) :
    ((dialSocks5 env proxy t).outcome =
        Outcome.ret c (some (GoError.errorsNew "Server does not support Socks 5.")) →
      ∃ ev, (dialSocks5 env proxy t).trace.getLast? = some ev ∧
        ev.err = some (GoError.errorsNew "Server does not support Socks 5.")) ∧
    ((dialSocks5 env proxy t).outcome =
        Outcome.ret c (some (GoError.errorsNew "Server does not respond properly.")) →
      (∃ ev, (dialSocks5 env proxy t).trace.getLast? = some ev ∧
        ev.err = some (GoError.errorsNew "Server does not respond properly.")) ∨
      (∃ d, (readsOf (dialSocks5 env proxy t).trace)[1]? = some (d, none) ∧ d.length ≠ 10)) := by
  have hpath := dialSocks5_path env proxy t
  generalize dialSocks5 env proxy t = R at *
  have hne1 : ∀ host : String,
      GoError.errorsNew ("Cannot resolve host: " ++ host ++ ".") ≠
        GoError.errorsNew "Server does not support Socks 5." :=
    fun host => resolveMsg_ne _ host _ (by decide) (by decide)
  have hne2 : ∀ host : String,
      GoError.errorsNew ("Cannot resolve IPv4 address of the host: " ++ host ++ ".") ≠
        GoError.errorsNew "Server does not support Socks 5." :=
    fun host => resolveMsg_ne _ host _ (by decide) (by decide)
  have hne3 : ∀ host : String,
      GoError.errorsNew ("Cannot resolve host: " ++ host ++ ".") ≠
        GoError.errorsNew "Server does not respond properly." :=
    fun host => resolveMsg_ne _ host _ (by decide) (by decide)
  have hne4 : ∀ host : String,
      GoError.errorsNew ("Cannot resolve IPv4 address of the host: " ++ host ++ ".") ≠
        GoError.errorsNew "Server does not respond properly." :=
    fun host => resolveMsg_ne _ host _ (by decide) (by decide)
  cases hpath with
  | dialFail e hd =>
    constructor <;> intro h <;> simp at h
    · exact ⟨_, rfl, by simp [Event.err, h.2]⟩
    · exact Or.inl ⟨_, rfl, by simp [Event.err, h.2]⟩
  | writeFail c n e hd hw =>
    constructor <;> intro h <;> simp at h
    · exact ⟨_, rfl, by simp [Event.err, h.2]⟩
    · exact Or.inl ⟨_, rfl, by simp [Event.err, h.2]⟩
  | readFail c n raw e hd hw hr =>
    constructor <;> intro h <;> simp at h
    · exact ⟨_, rfl, by simp [Event.err, h.2]⟩
    · exact Or.inl ⟨_, rfl, by simp [Event.err, h.2]⟩
  | rejected c n raw m hd hw hr hd2 hm =>
    constructor <;> intro h <;> simp at h
  | detail c n raw r hd hw hr hacc hdet =>
    cases hdet with
    | parseFail e hp =>
      obtain ⟨k, hk⟩ := splitHostPort_err_form t e hp
      subst hk
      constructor <;> intro h <;> simp at h
    | lookupFail host port ips le e hp hl he =>
      rcases LookupIP4_err_cases env _ host ips le e hl he with h1 | h2 | h3
      · subst h1
        constructor <;> intro h <;> simp at h
        · exact ⟨Event.lookupIP host ips (some e), by simp, by simp [Event.err, h.2]⟩
        · exact Or.inl ⟨Event.lookupIP host ips (some e), by simp, by simp [Event.err, h.2]⟩
      · obtain ⟨-, -, rfl⟩ := h2
        constructor <;> intro h <;> simp only [Outcome.ret.injEq, Option.some.injEq] at h
        · exact absurd h.2 (hne1 host)
        · exact absurd h.2 (hne3 host)
      · obtain ⟨-, -, -, rfl⟩ := h3
        constructor <;> intro h <;> simp only [Outcome.ret.injEq, Option.some.injEq] at h
        · exact absurd h.2 (hne2 host)
        · exact absurd h.2 (hne4 host)
    | writeFail host port ips b0 b1 b2 b3 n2 e hp hl hip hw2 =>
      constructor <;> intro h <;> simp at h
      · exact ⟨Event.write c [5, 1, 0, 1, b0, b1, b2, b3, port / 256 % 256, port % 256] n2
          (some e), by simp, by simp [Event.err, h.2]⟩
      · exact Or.inl ⟨Event.write c [5, 1, 0, 1, b0, b1, b2, b3, port / 256 % 256, port % 256]
          n2 (some e), by simp, by simp [Event.err, h.2]⟩
    | readFail host port ips b0 b1 b2 b3 n2 raw2 e hp hl hip hw2 hr2 =>
      constructor <;> intro h <;> simp at h
      · exact ⟨Event.read c 1024 (raw2.take 1024) (some e), by simp, by simp [Event.err, h.2]⟩
      · exact Or.inl ⟨Event.read c 1024 (raw2.take 1024) (some e), by simp,
          by simp [Event.err, h.2]⟩
    | replied host port ips b0 b1 b2 b3 n2 raw2 err hp hl hip hw2 hr2 herr =>
      by_cases hlen : (raw2.take 1024).length ≠ 10
      · rw [if_pos hlen] at herr
        subst herr
        constructor <;> intro h
        · simp at h
        · exact Or.inr ⟨raw2.take 1024, by simp [readsOf], hlen⟩
      · rw [if_neg hlen] at herr
        by_cases hs : (raw2.take 1024)[1]? ≠ some 0
        · rw [if_pos hs] at herr
          subst herr
          constructor <;> intro h <;> simp at h
        · rw [if_neg hs] at herr
          subst herr
          constructor <;> intro h <;> simp at h

/-- The run of `dialSocks5` when the negotiation reply is `05 00`: it is the detail request. -/
theorem dialSocks5_of_accepted (env : Env) (proxy t : String) (conn : Conn) (n : Nat)
    (hd : env.dial "tcp" proxy = Except.ok conn)
    (hw : env.write [Event.dial "tcp" proxy (some conn) none] conn [5, 1, 0] = (n, none))
    (hr : env.read [Event.dial "tcp" proxy (some conn) none, Event.write conn [5, 1, 0] n none]
      conn 1024 = ([5, 0], none)) :
    dialSocks5 env proxy t =
      detailRequest env conn t none
        [Event.dial "tcp" proxy (some conn) none, Event.write conn [5, 1, 0] n none,
          Event.read conn 1024 [5, 0] none] := by
  have hr2 : env.read ([Event.dial "tcp" proxy (some conn) none] ++
      [Event.write conn [5, 1, 0] n none]) conn 1024 = ([5, 0], none) := hr
  have hs := sendReceive_write_ok env _ conn _ n [5, 0] none hw hr2
  simp only [List.cons_append, List.nil_append] at hs
  have ht : List.take 1024 [5, 0] = [5, 0] := by decide
  rw [ht] at hs
  simp only [dialSocks5, hd, hs]
  simp [index_cons_zero, index_cons_succ]

/-! ## The claims -/

/-- C1. Success path of `dialSocks5`, stated on the answers of the outside
world.  `net.Dial("tcp", proxy)` opens `conn`; the target parses to
`(host, p)`; the write of the negotiation request reports no error and the read
that follows it yields exactly `05 00` without error; the resolver, asked for
`host`, answers `ips` without error, and `a0.a1.a2.a3` is the first IPv4
address of `ips`; the write of the CONNECT request reports no error and the
read that follows it yields a 10-byte `reply` with byte 1 equal to 0, without
error.  Then `dialSocks5` returns the `nil` error with the very connection
opened to the proxy, its whole run is dial, write, read, parse, resolver query,
write, read, and the operations on the stream are exactly: write `05 01 00`,
one read, write `05 01 00 01 a0 a1 a2 a3 (p / 256) (p % 256)`, one read. -/
theorem dialSocks5_success (env : Env) (proxy targetAddr host : String) (conn : Conn)
    (p a0 a1 a2 a3 n1 n2 : Nat) (ips : List IP) (reply : List Nat)
    (hdial : env.dial "tcp" proxy = Except.ok conn)
    (hparse : splitHostPort targetAddr = ⟨host, p, none⟩)
    (hw1 : env.write [Event.dial "tcp" proxy (some conn) none] conn [5, 1, 0] = (n1, none))
    (hr1 : env.read
      [Event.dial "tcp" proxy (some conn) none, Event.write conn [5, 1, 0] n1 none]
      conn 1024 = ([5, 0], none))
    (hres : env.lookupIP
      [Event.dial "tcp" proxy (some conn) none, Event.write conn [5, 1, 0] n1 none,
        Event.read conn 1024 [5, 0] none, Event.parse targetAddr] host = (ips, none))
    (hfirst : firstIPv4 ips = some [a0, a1, a2, a3])
    (hw2 : env.write
      [Event.dial "tcp" proxy (some conn) none, Event.write conn [5, 1, 0] n1 none,
        Event.read conn 1024 [5, 0] none, Event.parse targetAddr,
        Event.lookupIP host ips none]
      conn [5, 1, 0, 1, a0, a1, a2, a3, p / 256, p % 256] = (n2, none))
    (hr2 : env.read
      [Event.dial "tcp" proxy (some conn) none, Event.write conn [5, 1, 0] n1 none,
        Event.read conn 1024 [5, 0] none, Event.parse targetAddr,
        Event.lookupIP host ips none,
        Event.write conn [5, 1, 0, 1, a0, a1, a2, a3, p / 256, p % 256] n2 none]
      conn 1024 = (reply, none))
    (hlen : reply.length = 10) (hst : reply[1]? = some 0) :
    dialSocks5 env proxy targetAddr =
      ⟨Outcome.ret (some conn) none,
        [Event.dial "tcp" proxy (some conn) none,
          Event.write conn [5, 1, 0] n1 none,
          Event.read conn 1024 [5, 0] none,
          Event.parse targetAddr,
          Event.lookupIP host ips none,
          Event.write conn [5, 1, 0, 1, a0, a1, a2, a3, p / 256, p % 256] n2 none,
          Event.read conn 1024 reply none]⟩ ∧
    streamOps (dialSocks5 env proxy targetAddr).trace =
      [Event.write conn [5, 1, 0] n1 none,
        Event.read conn 1024 [5, 0] none,
        Event.write conn [5, 1, 0, 1, a0, a1, a2, a3, p / 256, p % 256] n2 none,
        Event.read conn 1024 reply none] := by
  have hp65 : p < 65536 := by
    have := splitHostPort_port_lt targetAddr
    rw [hparse] at this
    exact this
  have hp256 : p / 256 % 256 = p / 256 := Nat.mod_eq_of_lt (by omega)
  have hip : rangeTo4 ips = some [a0, a1, a2, a3] := by
    rw [rangeTo4_eq_firstIPv4, hfirst]
  have htake : reply.take 1024 = reply := List.take_of_length_le (by omega)
  have hacc := dialSocks5_of_accepted env proxy targetAddr conn n1 hdial hw1 hr1
  have hpath : DetailPath env conn targetAddr
      [Event.dial "tcp" proxy (some conn) none, Event.write conn [5, 1, 0] n1 none,
        Event.read conn 1024 [5, 0] none]
      ⟨Outcome.ret (some conn) none,
        [Event.dial "tcp" proxy (some conn) none, Event.write conn [5, 1, 0] n1 none,
          Event.read conn 1024 [5, 0] none] ++
          [Event.parse targetAddr, Event.lookupIP host ips none,
            Event.write conn [5, 1, 0, 1, a0, a1, a2, a3, p / 256 % 256, p % 256] n2 none,
            Event.read conn 1024 (reply.take 1024) none]⟩ := by
    refine DetailPath.replied host p ips a0 a1 a2 a3 n2 reply none hparse hres hip ?_ ?_ ?_
    · rw [hp256]; exact hw2
    · rw [hp256]; exact hr2
    · rw [htake]
      simp [hlen, hst]
  have hrun := detailRequest_of_path env conn targetAddr none _ _ hpath
  rw [htake, hp256] at hrun
  have hfull : dialSocks5 env proxy targetAddr =
      ⟨Outcome.ret (some conn) none,
        [Event.dial "tcp" proxy (some conn) none,
          Event.write conn [5, 1, 0] n1 none,
          Event.read conn 1024 [5, 0] none,
          Event.parse targetAddr,
          Event.lookupIP host ips none,
          Event.write conn [5, 1, 0, 1, a0, a1, a2, a3, p / 256, p % 256] n2 none,
          Event.read conn 1024 reply none]⟩ := by
    rw [hacc, hrun]
    rfl
  refine ⟨hfull, ?_⟩
  rw [hfull]
  simp [streamOps]

theorem dialSocks5_success_witness :
    dialSocks5 okEnv "127.0.0.1:1080" "example.com:443" =
      ⟨Outcome.ret (some 7) none,
        [Event.dial "tcp" "127.0.0.1:1080" (some 7) none,
          Event.write 7 [5, 1, 0] 3 none,
          Event.read 7 1024 [5, 0] none,
          Event.parse "example.com:443",
          Event.lookupIP "example.com" [[93, 184, 216, 34]] none,
          Event.write 7 [5, 1, 0, 1, 93, 184, 216, 34, 443 / 256, 443 % 256] 10 none,
          Event.read 7 1024 [5, 0, 0, 1, 0, 0, 0, 0, 0, 0] none]⟩ ∧
    streamOps (dialSocks5 okEnv "127.0.0.1:1080" "example.com:443").trace =
      [Event.write 7 [5, 1, 0] 3 none,
        Event.read 7 1024 [5, 0] none,
        Event.write 7 [5, 1, 0, 1, 93, 184, 216, 34, 443 / 256, 443 % 256] 10 none,
        Event.read 7 1024 [5, 0, 0, 1, 0, 0, 0, 0, 0, 0] none] :=
  dialSocks5_success okEnv "127.0.0.1:1080" "example.com:443" "example.com" 7 443
    93 184 216 34 3 10 [[93, 184, 216, 34]] [5, 0, 0, 1, 0, 0, 0, 0, 0, 0]
    rfl (by decide) rfl (by decide) rfl (by decide) rfl (by decide) (by decide) (by decide)

/-- C2. Negotiation-reply rejection, evaluated on a reply with the wrong
version.  The proxy answers `04 00` to the negotiation request, the target is
`example.com:443` and resolves to `93.184.216.34`.  The claim asks for a
non-`nil` error and no second write; the run returns the `nil` error and writes
the CONNECT request `05 01 00 01 5d b8 d8 22 01 bb`: the branch of line 80
assigns `err` without returning. -/
theorem dialSocks5_wrong_version_connects :
    (dialSocks5 (scriptEnv [4, 0] [5, 0, 0, 1, 0, 0, 0, 0, 0, 0] [[93, 184, 216, 34]])
      "127.0.0.1:1080" "example.com:443") =
      ⟨Outcome.ret (some 7) none,
        [Event.dial "tcp" "127.0.0.1:1080" (some 7) none,
          Event.write 7 [5, 1, 0] 3 none,
          Event.read 7 1024 [4, 0] none,
          Event.parse "example.com:443",
          Event.lookupIP "example.com" [[93, 184, 216, 34]] none,
          Event.write 7 [5, 1, 0, 1, 93, 184, 216, 34, 1, 187] 10 none,
          Event.read 7 1024 [5, 0, 0, 1, 0, 0, 0, 0, 0, 0] none]⟩ := by
  set_option maxRecDepth 100000 in decide

/-- C3. Every connection returned without error is fully negotiated, evaluated
on a negotiation reply of the wrong length.  The proxy answers the single byte
`05` to the negotiation request and the 10-byte success reply to the CONNECT
request.  The claim asks that a run with the `nil` error has read exactly
`05 00` as negotiation reply; the run returns the `nil` error although the
negotiation reply it read is `05`: the branch of line 78 assigns `err` without
returning. -/
theorem dialSocks5_short_reply_connects :
    (dialSocks5 (scriptEnv [5] [5, 0, 0, 1, 0, 0, 0, 0, 0, 0] [[93, 184, 216, 34]])
      "127.0.0.1:1080" "example.com:443").outcome = Outcome.ret (some 7) none ∧
    readsOf (dialSocks5 (scriptEnv [5] [5, 0, 0, 1, 0, 0, 0, 0, 0, 0] [[93, 184, 216, 34]])
      "127.0.0.1:1080" "example.com:443").trace =
      [([5], none), ([5, 0, 0, 1, 0, 0, 0, 0, 0, 0], none)] := by
  set_option maxRecDepth 100000 in decide

/-- C4, counterexample.  The proxy accepts the negotiation and answers the
CONNECT request with status byte `01`: the run returns the non-`nil` error
"Can't complete SOCKS5 connection." and, with it, the connection handle 7 it
opened to the proxy, not `nil`. -/
theorem failed_dial_keeps_conn :
    (dialSocks5 (scriptEnv [5, 0] [5, 1, 0, 1, 0, 0, 0, 0, 0, 0] [[93, 184, 216, 34]])
      "127.0.0.1:1080" "example.com:443").outcome =
      Outcome.ret (some 7) (some (GoError.errorsNew "Can't complete SOCKS5 connection.")) := by
  set_option maxRecDepth 100000 in decide

/-- C4, as amended.  The function returned by `DialSocks5Proxy` runs
`dialSocks5`, and in every run whose returned error is non-`nil` the returned
connection is `nil` exactly when `net.Dial` failed; whenever the connection to
the proxy was opened, that connection is returned together with the error. -/
theorem failed_dial_returns_opened_conn (env : Env) (proxy network t : String)
    (c : Option Conn) (e : GoError)
    (h : (DialSocks5Proxy env proxy network t).outcome = Outcome.ret c (some e)) :
    DialSocks5Proxy env proxy network t = dialSocks5 env proxy t ∧
    c = (match env.dial "tcp" proxy with
      | Except.ok conn => some conn
      | Except.error _ => none) :=
  ⟨rfl, dialSocks5_conn env proxy t c (some e) h⟩

theorem failed_dial_returns_opened_conn_witness :
    DialSocks5Proxy (scriptEnv [5, 0] [5, 0] [[93, 184, 216, 34]]) "127.0.0.1:1080" "tcp"
        "example.com:443" =
      dialSocks5 (scriptEnv [5, 0] [5, 0] [[93, 184, 216, 34]]) "127.0.0.1:1080"
        "example.com:443" ∧
    some 7 = (match (scriptEnv [5, 0] [5, 0] [[93, 184, 216, 34]]).dial "tcp"
        "127.0.0.1:1080" with
      | Except.ok conn => some conn
      | Except.error _ => none) :=
  failed_dial_returns_opened_conn (scriptEnv [5, 0] [5, 0] [[93, 184, 216, 34]])
    "127.0.0.1:1080" "tcp" "example.com:443" (some 7)
    (GoError.errorsNew "Server does not respond properly.")
    (by set_option maxRecDepth 100000 in decide)

/-- C5. CONNECT-reply validation.  In every run whose second read yields the
reply `d` without error: a length other than 10 gives the error "Server does
not respond properly."; length 10 with a non-zero byte 1 gives the error
"Can't complete SOCKS5 connection."; the returned error is `nil` exactly when
`d` has 10 bytes and byte 1 is 0; and any two runs whose CONNECT replies agree
in length and in byte 1 return the same error, whatever the other bytes are. -/
theorem connect_reply_validation (env : Env) (proxy t : String) (d : List Nat)
    (h : (readsOf (dialSocks5 env proxy t).trace)[1]? = some (d, none)) :
    (d.length ≠ 10 → ∃ c, (dialSocks5 env proxy t).outcome =
      Outcome.ret c (some (GoError.errorsNew "Server does not respond properly."))) ∧
    (d.length = 10 → d[1]? ≠ some 0 → ∃ c, (dialSocks5 env proxy t).outcome =
      Outcome.ret c (some (GoError.errorsNew "Can't complete SOCKS5 connection."))) ∧
    ((∃ c, (dialSocks5 env proxy t).outcome = Outcome.ret c none) ↔
      d.length = 10 ∧ d[1]? = some 0) ∧
    (∀ (env2 : Env) (proxy2 t2 : String) (d2 : List Nat),
      (readsOf (dialSocks5 env2 proxy2 t2).trace)[1]? = some (d2, none) →
      d2.length = d.length → d2[1]? = d[1]? →
      ∀ e, (∃ c, (dialSocks5 env proxy t).outcome = Outcome.ret c e) ↔
        (∃ c, (dialSocks5 env2 proxy2 t2).outcome = Outcome.ret c e)) := by
  obtain ⟨conn, hR⟩ := connect_reply_decides env proxy t d h
  refine ⟨?_, ?_, ?_, ?_⟩
  · intro hlen
    rw [if_pos hlen] at hR
    exact ⟨_, hR⟩
  · intro hlen hs
    rw [if_neg (by simpa using hlen), if_pos hs] at hR
    exact ⟨_, hR⟩
  · constructor
    · rintro ⟨c, hc⟩
      rw [hc] at hR
      by_cases hlen : d.length ≠ 10
      · rw [if_pos hlen] at hR; simp at hR
      · rw [if_neg hlen] at hR
        by_cases hs : d[1]? ≠ some 0
        · rw [if_pos hs] at hR; simp at hR
        · exact ⟨not_not.mp hlen, not_not.mp hs⟩
    · rintro ⟨hlen, hs⟩
      rw [if_neg (by simpa using hlen), if_neg (by simpa using hs)] at hR
      exact ⟨_, hR⟩
  · intro env2 proxy2 t2 d2 h2 hlen hs e
    obtain ⟨conn2, hR2⟩ := connect_reply_decides env2 proxy2 t2 d2 h2
    rw [hlen, hs] at hR2
    rw [hR, hR2]
    simp

theorem connect_reply_validation_witness :
    ∃ c, (dialSocks5 (scriptEnv [5, 0] [5, 1, 0, 1, 0, 0, 0, 0, 0, 0] [[93, 184, 216, 34]])
      "127.0.0.1:1080" "example.com:443").outcome =
      Outcome.ret c (some (GoError.errorsNew "Can't complete SOCKS5 connection.")) :=
  (connect_reply_validation
    (scriptEnv [5, 0] [5, 1, 0, 1, 0, 0, 0, 0, 0, 0] [[93, 184, 216, 34]])
    "127.0.0.1:1080" "example.com:443" [5, 1, 0, 1, 0, 0, 0, 0, 0, 0]
    (by set_option maxRecDepth 100000 in decide)).2.1 (by decide) (by decide)

/-- C6. Method-rejected abort.  In every run whose first read yields, without
error, the two bytes `05 m` with `m` non-zero, `dialSocks5` returns the error
"socks method negotiation failed." and its whole trace is: the dial, one write
of `05 01 00`, one read.  The target address is not parsed, the resolver is not
queried, no CONNECT request is written, and the run is the same for every
target address and every resolver. -/
theorem method_rejected_aborts (env : Env) (proxy t : String) (m : Nat)
    (h : (readsOf (dialSocks5 env proxy t).trace)[0]? = some ([5, m], none))
    (hm : m ≠ 0) :
    ∃ conn n, env.dial "tcp" proxy = Except.ok conn ∧
      dialSocks5 env proxy t =
        ⟨Outcome.ret (some conn) (some (GoError.errorsNew "socks method negotiation failed.")),
          [Event.dial "tcp" proxy (some conn) none, Event.write conn [5, 1, 0] n none,
            Event.read conn 1024 [5, m] none]⟩ ∧
      parsesOf (dialSocks5 env proxy t).trace = [] ∧
      lookupsOf (dialSocks5 env proxy t).trace = [] ∧
      writesOf (dialSocks5 env proxy t).trace = [[5, 1, 0]] ∧
      ∀ (t2 : String) (lk : List Event → String → List IP × Option GoError),
        dialSocks5 ⟨env.dial, env.write, env.read, lk⟩ proxy t2 = dialSocks5 env proxy t := by
  have hpath := dialSocks5_path env proxy t
  have key : ∃ conn n raw, env.dial "tcp" proxy = Except.ok conn ∧
      env.write [Event.dial "tcp" proxy (some conn) none] conn [5, 1, 0] = (n, none) ∧
      env.read [Event.dial "tcp" proxy (some conn) none, Event.write conn [5, 1, 0] n none]
        conn 1024 = (raw, none) ∧ raw.take 1024 = [5, m] := by
    generalize dialSocks5 env proxy t = R at *
    cases hpath with
    | dialFail e hd => simp [readsOf] at h
    | writeFail c n e hd hw => simp [readsOf] at h
    | readFail c n raw e hd hw hr => simp [readsOf] at h
    | rejected c n raw m2 hd hw hr hd2 hm2 =>
      simp [readsOf] at h
      subst h
      exact ⟨c, n, raw, hd, hw, hr, hd2⟩
    | detail c n raw r hd hw hr hacc hdet =>
      have h2 : raw.take 1024 = [5, m] := by
        cases hdet <;> (simp [readsOf] at h; exact h)
      exact ⟨c, n, raw, hd, hw, hr, h2⟩
  obtain ⟨conn, n, raw, hd, hw, hr, hd2⟩ := key
  have hR := dialSocks5_of_rejected env proxy t conn n raw m hd hw hr hd2 hm
  refine ⟨conn, n, hd, hR, ?_, ?_, ?_, ?_⟩
  · rw [hR]; simp [parsesOf]
  · rw [hR]; simp [lookupsOf]
  · rw [hR]; simp [writesOf]
  · intro t2 lk
    rw [hR]
    exact dialSocks5_of_rejected ⟨env.dial, env.write, env.read, lk⟩ proxy t2 conn n raw m
      hd hw hr hd2 hm

theorem method_rejected_aborts_witness :
    ∃ conn n, (scriptEnv [5, 2] [] []).dial "tcp" "127.0.0.1:1080" = Except.ok conn ∧
      dialSocks5 (scriptEnv [5, 2] [] []) "127.0.0.1:1080" "example.com:443" =
        ⟨Outcome.ret (some conn) (some (GoError.errorsNew "socks method negotiation failed.")),
          [Event.dial "tcp" "127.0.0.1:1080" (some conn) none,
            Event.write conn [5, 1, 0] n none,
            Event.read conn 1024 [5, 2] none]⟩ ∧
      parsesOf (dialSocks5 (scriptEnv [5, 2] [] []) "127.0.0.1:1080" "example.com:443").trace
        = [] ∧
      lookupsOf (dialSocks5 (scriptEnv [5, 2] [] []) "127.0.0.1:1080" "example.com:443").trace
        = [] ∧
      writesOf (dialSocks5 (scriptEnv [5, 2] [] []) "127.0.0.1:1080" "example.com:443").trace
        = [[5, 1, 0]] ∧
      ∀ (t2 : String) (lk : List Event → String → List IP × Option GoError),
        dialSocks5 ⟨(scriptEnv [5, 2] [] []).dial, (scriptEnv [5, 2] [] []).write,
          (scriptEnv [5, 2] [] []).read, lk⟩ "127.0.0.1:1080" t2 =
        dialSocks5 (scriptEnv [5, 2] [] []) "127.0.0.1:1080" "example.com:443" :=
  method_rejected_aborts (scriptEnv [5, 2] [] []) "127.0.0.1:1080" "example.com:443" 2
    (by set_option maxRecDepth 100000 in decide) (by decide)

/-- C7. Resolution failure precedes CONNECT.  The connection to the proxy
opens, the negotiation reply `d` is read without error and does not reject the
method (in particular `d = 05 00`), the target parses to `(host, p)`, and every
resolver answer for `host` in the run is an error, or empty, or without any
address that has an IPv4 form.  Then the resolver is queried exactly once, the
run returns a non-`nil` resolution error (the resolver's own error, or one of
the two messages of `LookupIP4`), and the only write on the stream is the
3-byte negotiation request. -/
theorem resolution_failure_precedes_connect (env : Env) (proxy t host : String) (conn : Conn)
    (p : Nat) (d : List Nat)
    (hdial : env.dial "tcp" proxy = Except.ok conn)
    (hr1 : (readsOf (dialSocks5 env proxy t).trace)[0]? = some (d, none))
    (hacc : ∀ m, d = [5, m] → m = 0)
    (hparse : splitHostPort t = ⟨host, p, none⟩)
    (hres : ∀ ips le, (host, ips, le) ∈ lookupsOf (dialSocks5 env proxy t).trace →
      le ≠ none ∨ ips = [] ∨ ∀ x ∈ ips, To4 x = none) :
    ∃ ips le e,
      lookupsOf (dialSocks5 env proxy t).trace = [(host, ips, le)] ∧
      (dialSocks5 env proxy t).outcome = Outcome.ret (some conn) (some e) ∧
      (le = some e ∨
        (le = none ∧ ips = [] ∧
          e = GoError.errorsNew ("Cannot resolve host: " ++ host ++ ".")) ∨
        (le = none ∧ ips ≠ [] ∧
          e = GoError.errorsNew ("Cannot resolve IPv4 address of the host: " ++ host ++ "."))) ∧
      writesOf (dialSocks5 env proxy t).trace = [[5, 1, 0]] := by
  have hpath := dialSocks5_path env proxy t
  generalize dialSocks5 env proxy t = R at *
  cases hpath with
  | dialFail e hd => simp [readsOf] at hr1
  | writeFail c n e hd hw => simp [readsOf] at hr1
  | readFail c n raw e hd hw hr => simp [readsOf] at hr1
  | rejected c n raw m hd hw hr hd2 hm =>
    simp [readsOf] at hr1
    exact absurd (hacc m hr1.symm) hm
  | detail c n raw r hd hw hr hacc2 hdet =>
    rw [hdial] at hd
    cases hd
    cases hdet with
    | parseFail e hp => rw [hparse] at hp; simp at hp
    | lookupFail h port ips le e hp hl he =>
      rw [hparse] at hp
      cases hp
      refine ⟨ips, le, e, by simp [lookupsOf], rfl, ?_, by simp [writesOf]⟩
      rcases LookupIP4_err_cases env _ host ips le e hl he with h1 | h2 | h3
      · exact Or.inl h1
      · exact Or.inr (Or.inl h2)
      · exact Or.inr (Or.inr ⟨h3.1, h3.2.1, h3.2.2.2⟩)
    | writeFail h port ips b0 b1 b2 b3 n2 e hp hl hip hw2 =>
      rw [hparse] at hp
      cases hp
      have := hres ips none (by simp [lookupsOf])
      rcases this with h1 | h2 | h3
      · exact absurd rfl h1
      · subst h2; simp [rangeTo4] at hip
      · rw [(rangeTo4_eq_none_iff ips).mpr h3] at hip; simp at hip
    | readFail h port ips b0 b1 b2 b3 n2 raw2 e hp hl hip hw2 hr2 =>
      rw [hparse] at hp
      cases hp
      have := hres ips none (by simp [lookupsOf])
      rcases this with h1 | h2 | h3
      · exact absurd rfl h1
      · subst h2; simp [rangeTo4] at hip
      · rw [(rangeTo4_eq_none_iff ips).mpr h3] at hip; simp at hip
    | replied h port ips b0 b1 b2 b3 n2 raw2 err hp hl hip hw2 hr2 herr =>
      rw [hparse] at hp
      cases hp
      have := hres ips none (by simp [lookupsOf])
      rcases this with h1 | h2 | h3
      · exact absurd rfl h1
      · subst h2; simp [rangeTo4] at hip
      · rw [(rangeTo4_eq_none_iff ips).mpr h3] at hip; simp at hip

theorem resolution_failure_precedes_connect_witness :
    ∃ ips le e,
      lookupsOf (dialSocks5
        (scriptEnv [5, 0] [] [[32, 1, 13, 184, 0, 0, 0, 0, 0, 0, 0, 0, 0, 0, 0, 1]])
        "127.0.0.1:1080" "example.com:443").trace = [("example.com", ips, le)] ∧
      (dialSocks5 (scriptEnv [5, 0] [] [[32, 1, 13, 184, 0, 0, 0, 0, 0, 0, 0, 0, 0, 0, 0, 1]])
        "127.0.0.1:1080" "example.com:443").outcome = Outcome.ret (some 7) (some e) ∧
      (le = some e ∨
        (le = none ∧ ips = [] ∧
          e = GoError.errorsNew ("Cannot resolve host: " ++ "example.com" ++ ".")) ∨
        (le = none ∧ ips ≠ [] ∧
          e = GoError.errorsNew
            ("Cannot resolve IPv4 address of the host: " ++ "example.com" ++ "."))) ∧
      writesOf (dialSocks5
        (scriptEnv [5, 0] [] [[32, 1, 13, 184, 0, 0, 0, 0, 0, 0, 0, 0, 0, 0, 0, 1]])
        "127.0.0.1:1080" "example.com:443").trace = [[5, 1, 0]] :=
  resolution_failure_precedes_connect
    (scriptEnv [5, 0] [] [[32, 1, 13, 184, 0, 0, 0, 0, 0, 0, 0, 0, 0, 0, 0, 1]])
    "127.0.0.1:1080" "example.com:443" "example.com" 7 443 [5, 0] rfl
    (by rw [ipv6OnlyEnv_trace]; decide)
    (by intro m hm; simp at hm; exact hm.symm)
    (by decide)
    (by
      intro ips le h
      rw [ipv6OnlyEnv_trace] at h
      simp [lookupsOf] at h
      obtain ⟨rfl, rfl⟩ := h
      right; right
      intro x hx
      simp at hx
      subst hx
      decide)

/-- C8. Address-format failure precedes DNS.  The connection to the proxy
opens, the negotiation reply `d` is read without error and does not reject the
method (in particular `d = 05 00`), and the target address has no valid numeric
port (it does not split into host and port, or its port part is not an unsigned
decimal integer in 0..65535).  Then the run returns a non-`nil` address-format
error, the `NumError` of `strconv.ParseUint` on the port part; the target was
parsed once, the resolver is never queried, and the only write on the stream is
the negotiation request. -/
theorem address_format_failure_precedes_dns (env : Env) (proxy t : String) (conn : Conn)
    (d : List Nat)
    (hdial : env.dial "tcp" proxy = Except.ok conn)
    (hr1 : (readsOf (dialSocks5 env proxy t).trace)[0]? = some (d, none))
    (hacc : ∀ m, d = [5, m] → m = 0)
    (hbad : ¬ ValidTarget t) :
    ∃ k, (dialSocks5 env proxy t).outcome =
        Outcome.ret (some conn)
          (some (GoError.numError "ParseUint" (netSplitHostPort t).port k)) ∧
      parsesOf (dialSocks5 env proxy t).trace = [t] ∧
      lookupsOf (dialSocks5 env proxy t).trace = [] ∧
      writesOf (dialSocks5 env proxy t).trace = [[5, 1, 0]] := by
  have hpath := dialSocks5_path env proxy t
  have hne : (splitHostPort t).err ≠ none := fun h => hbad ((splitHostPort_err_none_iff t).mp h)
  generalize dialSocks5 env proxy t = R at *
  cases hpath with
  | dialFail e hd => simp [readsOf] at hr1
  | writeFail c n e hd hw => simp [readsOf] at hr1
  | readFail c n raw e hd hw hr => simp [readsOf] at hr1
  | rejected c n raw m hd hw hr hd2 hm =>
    simp [readsOf] at hr1
    exact absurd (hacc m hr1.symm) hm
  | detail c n raw r hd hw hr hacc2 hdet =>
    rw [hdial] at hd
    cases hd
    cases hdet with
    | parseFail e hp =>
      obtain ⟨k, hk⟩ := splitHostPort_err_form t e hp
      subst hk
      exact ⟨k, rfl, by simp [parsesOf], by simp [lookupsOf], by simp [writesOf]⟩
    | lookupFail h port ips le e hp hl he => rw [hp] at hne; exact absurd rfl hne
    | writeFail h port ips b0 b1 b2 b3 n2 e hp hl hip hw2 =>
      rw [hp] at hne; exact absurd rfl hne
    | readFail h port ips b0 b1 b2 b3 n2 raw2 e hp hl hip hw2 hr2 =>
      rw [hp] at hne; exact absurd rfl hne
    | replied h port ips b0 b1 b2 b3 n2 raw2 err hp hl hip hw2 hr2 herr =>
      rw [hp] at hne; exact absurd rfl hne

theorem address_format_failure_precedes_dns_witness :
    ∃ k, (dialSocks5 okEnv "127.0.0.1:1080" "example.com:65536").outcome =
        Outcome.ret (some 7)
          (some (GoError.numError "ParseUint" (netSplitHostPort "example.com:65536").port k)) ∧
      parsesOf (dialSocks5 okEnv "127.0.0.1:1080" "example.com:65536").trace =
        ["example.com:65536"] ∧
      lookupsOf (dialSocks5 okEnv "127.0.0.1:1080" "example.com:65536").trace = [] ∧
      writesOf (dialSocks5 okEnv "127.0.0.1:1080" "example.com:65536").trace = [[5, 1, 0]] :=
  address_format_failure_precedes_dns okEnv "127.0.0.1:1080" "example.com:65536" 7 [5, 0] rfl
    (by set_option maxRecDepth 100000 in decide)
    (by intro m hm; simp at hm; exact hm.symm)
    (by decide)

/-- C9. Contract of `splitHostPort`.  The error is non-`nil` exactly when
`net.SplitHostPort` fails or the port part is not an unsigned decimal integer
in 0..65535; with a `nil` error the host is the host part and the port is the
number the port part denotes; an address that fails the split yields an error
all the same, because the split then leaves the empty port string, which is not
a port; and an address `host:port` with a bracket-free, colon-free host and a
valid port returns exactly `host` and the number `port` denotes. -/
theorem splitHostPort_contract (addr : String) :
    ((splitHostPort addr).err ≠ none ↔
      ((netSplitHostPort addr).err ≠ none ∨ ¬ IsPort (netSplitHostPort addr).port)) ∧
    ((splitHostPort addr).err = none →
      (splitHostPort addr).host = (netSplitHostPort addr).host ∧
      (splitHostPort addr).port = decimalValue (netSplitHostPort addr).port.data) ∧
    ((netSplitHostPort addr).err ≠ none →
      (netSplitHostPort addr).port = "" ∧ ¬ IsPort "" ∧ (splitHostPort addr).err ≠ none) ∧
    (∀ host port : String, addr = host ++ ":" ++ port →
      (':' ∉ host.data ∧ '[' ∉ host.data ∧ ']' ∉ host.data) → IsPort port →
      splitHostPort addr = ⟨host, decimalValue port.data, none⟩) := by
  have hiff := splitHostPort_err_none_iff addr
  have hval : (splitHostPort addr).err = none →
      (splitHostPort addr).host = (netSplitHostPort addr).host ∧
      (splitHostPort addr).port = decimalValue (netSplitHostPort addr).port.data := by
    intro hok
    refine ⟨rfl, ?_⟩
    have hport := (hiff.mp hok).2
    have hv := (strconvParseUint_spec (netSplitHostPort addr).port).2.1 hok
    show (strconvParseUint (netSplitHostPort addr).port).1 % 65536 = _
    rw [hv]
    exact Nat.mod_eq_of_lt (Nat.lt_succ_of_le hport.2.2)
  refine ⟨?_, hval, ?_, ?_⟩
  · rw [Ne, hiff]
    unfold ValidTarget
    constructor
    · intro h
      by_cases h1 : (netSplitHostPort addr).err = none
      · exact Or.inr (fun h2 => h ⟨h1, h2⟩)
      · exact Or.inl h1
    · rintro (h1 | h2) ⟨h3, h4⟩
      · exact h1 h3
      · exact h2 h4
  · intro hne
    refine ⟨(netSplitHostPort_err addr hne).2, not_isPort_empty, ?_⟩
    rw [Ne, hiff]
    exact fun h => hne h.1
  · intro host port haddr hhost hport
    have hp3 : ':' ∉ port.data ∧ '[' ∉ port.data ∧ ']' ∉ port.data := by
      refine ⟨?_, ?_, ?_⟩ <;> intro hm
      · exact (isDigit_ne _ (hport.2.1 _ hm)).1 rfl
      · exact (isDigit_ne _ (hport.2.1 _ hm)).2.1 rfl
      · exact (isDigit_ne _ (hport.2.1 _ hm)).2.2 rfl
    have hsplit := netSplitHostPort_plain host.data port.data hhost hp3
    have hdata : addr = String.mk (host.data ++ ':' :: port.data) := by
      rw [haddr]
      apply String.ext
      simp
    rw [← hdata] at hsplit
    have hvalid : ValidTarget addr := by
      unfold ValidTarget
      rw [hsplit]
      exact ⟨rfl, hport⟩
    have hok := hiff.mpr hvalid
    have hv := hval hok
    rw [hsplit] at hv
    have : splitHostPort addr =
        ⟨(splitHostPort addr).host, (splitHostPort addr).port, (splitHostPort addr).err⟩ := rfl
    rw [this, hv.1, hv.2, hok]

theorem splitHostPort_contract_witness :
    splitHostPort "example.com:443" = ⟨"example.com", decimalValue "443".data, none⟩ :=
  (splitHostPort_contract "example.com:443").2.2.2 "example.com" "443" (by decide)
    (by decide) (by decide)

/-- C10. Selection of `LookupIP4`.  A resolver error is returned unchanged,
with a `nil` address.  Without resolver error: an empty answer gives the error
"Cannot resolve host: <host>."; a non-empty answer without any IPv4 form gives
the error "Cannot resolve IPv4 address of the host: <host>." and a `nil`
address; otherwise the result is `To4 x` with a `nil` error, where `x` is the
first address of the answer, in the order answered, whose `To4` is not `nil`,
and that result has exactly 4 bytes. -/
theorem LookupIP4_selection (env : Env) (tr : List Event) (host : String) :
    (∀ e, (env.lookupIP tr host).2 = some e →
      (LookupIP4 env tr host).ip = none ∧ (LookupIP4 env tr host).err = some e) ∧
    ((env.lookupIP tr host).2 = none → (env.lookupIP tr host).1 = [] →
      (LookupIP4 env tr host).ip = none ∧
      (LookupIP4 env tr host).err =
        some (GoError.errorsNew ("Cannot resolve host: " ++ host ++ "."))) ∧
    ((env.lookupIP tr host).2 = none → (env.lookupIP tr host).1 ≠ [] →
      (∀ x ∈ (env.lookupIP tr host).1, To4 x = none) →
      (LookupIP4 env tr host).ip = none ∧
      (LookupIP4 env tr host).err =
        some (GoError.errorsNew ("Cannot resolve IPv4 address of the host: " ++ host ++ "."))) ∧
    ((env.lookupIP tr host).2 = none →
      ∀ (pre post : List IP) (x ip : IP), (env.lookupIP tr host).1 = pre ++ x :: post →
        (∀ y ∈ pre, To4 y = none) → To4 x = some ip →
        (LookupIP4 env tr host).ip = some ip ∧ (LookupIP4 env tr host).err = none ∧
        ip.length = 4 ∧ firstIPv4 (env.lookupIP tr host).1 = some ip) := by
  rcases hl : env.lookupIP tr host with ⟨ips, le⟩
  refine ⟨?_, ?_, ?_, ?_⟩
  · intro e he
    simp only at he
    subst he
    rw [LookupIP4_of_err env tr host ips e hl]
    exact ⟨rfl, rfl⟩
  · intro he h0
    simp only at he h0
    subst he h0
    rw [LookupIP4_of_nil env tr host hl]
    exact ⟨rfl, rfl⟩
  · intro he hne hall
    simp only at he hne hall
    subst he
    rw [LookupIP4_of_none env tr host ips hl hne ((rangeTo4_eq_none_iff ips).mpr hall)]
    exact ⟨rfl, rfl⟩
  · intro he pre post x ip hips hpre hx
    simp only at he hips
    subst he
    have hr := rangeTo4_append pre post x ip hpre hx
    rw [← hips] at hr
    rw [LookupIP4_of_some env tr host ips ip hl hr]
    exact ⟨rfl, rfl, To4_length x ip hx, by rw [← rangeTo4_eq_firstIPv4, hr]⟩

theorem LookupIP4_selection_witness :
    (LookupIP4
      (scriptEnv [] [] [[32, 1, 13, 184, 0, 0, 0, 0, 0, 0, 0, 0, 0, 0, 0, 1],
        [0, 0, 0, 0, 0, 0, 0, 0, 0, 0, 255, 255, 10, 0, 0, 1], [93, 184, 216, 34]])
      [] "example.com").ip = some [10, 0, 0, 1] ∧
    (LookupIP4
      (scriptEnv [] [] [[32, 1, 13, 184, 0, 0, 0, 0, 0, 0, 0, 0, 0, 0, 0, 1],
        [0, 0, 0, 0, 0, 0, 0, 0, 0, 0, 255, 255, 10, 0, 0, 1], [93, 184, 216, 34]])
      [] "example.com").err = none ∧
    [10, 0, 0, 1].length = 4 ∧
    firstIPv4 ((scriptEnv [] [] [[32, 1, 13, 184, 0, 0, 0, 0, 0, 0, 0, 0, 0, 0, 0, 1],
        [0, 0, 0, 0, 0, 0, 0, 0, 0, 0, 255, 255, 10, 0, 0, 1], [93, 184, 216, 34]]).lookupIP
      [] "example.com").1 = some [10, 0, 0, 1] :=
  (LookupIP4_selection
    (scriptEnv [] [] [[32, 1, 13, 184, 0, 0, 0, 0, 0, 0, 0, 0, 0, 0, 0, 1],
      [0, 0, 0, 0, 0, 0, 0, 0, 0, 0, 255, 255, 10, 0, 0, 1], [93, 184, 216, 34]])
    [] "example.com").2.2.2 rfl
    [[32, 1, 13, 184, 0, 0, 0, 0, 0, 0, 0, 0, 0, 0, 0, 1]] [[93, 184, 216, 34]]
    [0, 0, 0, 0, 0, 0, 0, 0, 0, 0, 255, 255, 10, 0, 0, 1] [10, 0, 0, 1] rfl
    (by decide) (by decide)

/-- C11. CONNECT request framing.  In every run that issues a second write
(runs that fell through a wrong-length or wrong-version negotiation reply
included), the bytes `w` written are exactly the 10 bytes `05 01 00 01`, the 4
bytes of the first IPv4 address of the resolver's answer in order, and the
parsed port `p` in big-endian order: byte 8 is `p / 256`, byte 9 is `p % 256`,
both are bytes, and `256 * byte 8 + byte 9 = p`. -/
theorem connect_request_framing (env : Env) (proxy t : String) (w : List Nat)
    (h : (writesOf (dialSocks5 env proxy t).trace)[1]? = some w) :
    ∃ host p ips a0 a1 a2 a3,
      splitHostPort t = ⟨host, p, none⟩ ∧ p < 65536 ∧
      lookupsOf (dialSocks5 env proxy t).trace = [(host, ips, none)] ∧
      firstIPv4 ips = some [a0, a1, a2, a3] ∧
      w = [5, 1, 0, 1, a0, a1, a2, a3, p / 256, p % 256] ∧
      w.length = 10 ∧
      p / 256 < 256 ∧ p % 256 < 256 ∧
      256 * (p / 256) + p % 256 = p := by
  have hpath := dialSocks5_path env proxy t
  generalize dialSocks5 env proxy t = R at *
  have key : ∀ host p ips a0 a1 a2 a3, splitHostPort t = ⟨host, p, none⟩ →
      rangeTo4 ips = some [a0, a1, a2, a3] →
      w = [5, 1, 0, 1, a0, a1, a2, a3, p / 256 % 256, p % 256] →
      splitHostPort t = ⟨host, p, none⟩ ∧ p < 65536 ∧
      firstIPv4 ips = some [a0, a1, a2, a3] ∧
      w = [5, 1, 0, 1, a0, a1, a2, a3, p / 256, p % 256] ∧
      w.length = 10 ∧
      p / 256 < 256 ∧ p % 256 < 256 ∧
      256 * (p / 256) + p % 256 = p := by
    intro host p ips a0 a1 a2 a3 hp hip hw
    have hp65 : p < 65536 := by
      have := splitHostPort_port_lt t
      rw [hp] at this
      exact this
    have hp256 : p / 256 % 256 = p / 256 := Nat.mod_eq_of_lt (by omega)
    rw [hp256] at hw
    refine ⟨hp, hp65, ?_, hw, ?_, by omega, by omega, by omega⟩
    · rw [← rangeTo4_eq_firstIPv4, hip]
    · rw [hw]; rfl
  cases hpath with
  | dialFail e hd => simp [writesOf] at h
  | writeFail c n e hd hw => simp [writesOf] at h
  | readFail c n raw e hd hw hr => simp [writesOf] at h
  | rejected c n raw m hd hw hr hd2 hm => simp [writesOf] at h
  | detail c n raw r hd hw hr hacc hdet =>
    cases hdet with
    | parseFail e hp => simp [writesOf] at h
    | lookupFail host port ips le e hp hl he => simp [writesOf] at h
    | writeFail host port ips b0 b1 b2 b3 n2 e hp hl hip hw2 =>
      simp [writesOf] at h
      obtain ⟨k1, k2, k3, k4, k5, k6, k7, k8⟩ := key host port ips b0 b1 b2 b3 hp hip h.symm
      exact ⟨host, port, ips, b0, b1, b2, b3, k1, k2, by simp [lookupsOf], k3, k4, k5, k6,
        k7, k8⟩
    | readFail host port ips b0 b1 b2 b3 n2 raw2 e hp hl hip hw2 hr2 =>
      simp [writesOf] at h
      obtain ⟨k1, k2, k3, k4, k5, k6, k7, k8⟩ := key host port ips b0 b1 b2 b3 hp hip h.symm
      exact ⟨host, port, ips, b0, b1, b2, b3, k1, k2, by simp [lookupsOf], k3, k4, k5, k6,
        k7, k8⟩
    | replied host port ips b0 b1 b2 b3 n2 raw2 err hp hl hip hw2 hr2 herr =>
      simp [writesOf] at h
      obtain ⟨k1, k2, k3, k4, k5, k6, k7, k8⟩ := key host port ips b0 b1 b2 b3 hp hip h.symm
      exact ⟨host, port, ips, b0, b1, b2, b3, k1, k2, by simp [lookupsOf], k3, k4, k5, k6,
        k7, k8⟩

theorem connect_request_framing_witness :
    ∃ host p ips a0 a1 a2 a3,
      splitHostPort "example.com:8080" = ⟨host, p, none⟩ ∧ p < 65536 ∧
      lookupsOf (dialSocks5 (scriptEnv [4, 0] [5, 0, 0, 1, 0, 0, 0, 0, 0, 0] [[10, 1, 2, 3]])
        "127.0.0.1:1080" "example.com:8080").trace = [(host, ips, none)] ∧
      firstIPv4 ips = some [a0, a1, a2, a3] ∧
      [5, 1, 0, 1, 10, 1, 2, 3, 31, 144] = [5, 1, 0, 1, a0, a1, a2, a3, p / 256, p % 256] ∧
      [5, 1, 0, 1, 10, 1, 2, 3, 31, 144].length = 10 ∧
      p / 256 < 256 ∧ p % 256 < 256 ∧
      256 * (p / 256) + p % 256 = p :=
  connect_request_framing (scriptEnv [4, 0] [5, 0, 0, 1, 0, 0, 0, 0, 0, 0] [[10, 1, 2, 3]])
    "127.0.0.1:1080" "example.com:8080" [5, 1, 0, 1, 10, 1, 2, 3, 31, 144]
    (by rw [wrongVersionEnv_trace]; decide)

/-- C12. Wire exchange.  `sendReceive` makes exactly one `Write` of the whole
request.  If the write reports an error, that error is returned with a `nil`
response and no read is made.  Otherwise exactly one `Read` follows, into a
1024-byte buffer, and the result is the bytes that read delivered (at most
1024) with that read's error, unchanged.  `readAll` slices its buffer to the
count `n` that `Read` returned, and `n` is at most 1024. -/
theorem sendReceive_wire_exchange (env : Env) (tr : List Event) (conn : Conn)
    (req : List Nat) :
    (∀ e, (env.write tr conn req).2 = some e →
      sendReceive env tr conn req =
        ⟨[], some e, tr ++ [Event.write conn req (env.write tr conn req).1 (some e)]⟩) ∧
    ((env.write tr conn req).2 = none →
      sendReceive env tr conn req =
        ⟨(env.read (tr ++ [Event.write conn req (env.write tr conn req).1 none]) conn 1024).1.take
            1024,
          (env.read (tr ++ [Event.write conn req (env.write tr conn req).1 none]) conn 1024).2,
          tr ++ [Event.write conn req (env.write tr conn req).1 none,
            Event.read conn 1024
              ((env.read (tr ++ [Event.write conn req (env.write tr conn req).1 none])
                conn 1024).1.take 1024)
              (env.read (tr ++ [Event.write conn req (env.write tr conn req).1 none])
                conn 1024).2]⟩) ∧
    (sendReceive env tr conn req).resp.length ≤ 1024 ∧
    (∀ tr2 : List Event,
      (readAll env tr2 conn).resp =
        (connRead env tr2 conn (List.replicate 1024 0)).buf.take
          (connRead env tr2 conn (List.replicate 1024 0)).n ∧
      (connRead env tr2 conn (List.replicate 1024 0)).n ≤ 1024 ∧
      (readAll env tr2 conn).resp = (env.read tr2 conn 1024).1.take 1024 ∧
      (readAll env tr2 conn).err = (env.read tr2 conn 1024).2 ∧
      (readAll env tr2 conn).trace =
        tr2 ++ [Event.read conn 1024 (readAll env tr2 conn).resp (readAll env tr2 conn).err]) := by
  rcases hw : env.write tr conn req with ⟨n, we⟩
  have hA : ∀ e, we = some e → sendReceive env tr conn req =
      ⟨[], some e, tr ++ [Event.write conn req n (some e)]⟩ := by
    intro e he
    subst he
    exact sendReceive_write_err env tr conn req n e hw
  have hB : we = none → sendReceive env tr conn req =
      ⟨(env.read (tr ++ [Event.write conn req n none]) conn 1024).1.take 1024,
        (env.read (tr ++ [Event.write conn req n none]) conn 1024).2,
        tr ++ [Event.write conn req n none,
          Event.read conn 1024
            ((env.read (tr ++ [Event.write conn req n none]) conn 1024).1.take 1024)
            (env.read (tr ++ [Event.write conn req n none]) conn 1024).2]⟩ := by
    intro he
    subst he
    exact sendReceive_write_ok env tr conn req n _ _ hw rfl
  refine ⟨hA, hB, ?_, ?_⟩
  · cases we with
    | some e => rw [hA e rfl]; simp
    | none => rw [hB rfl]; simp [List.length_take]
  · intro tr2
    refine ⟨by simp only [readAll], ?_, ?_, ?_, ?_⟩
    · rw [connRead_eq]
      simp only [List.length_replicate, List.length_take]
      exact Nat.min_le_left _ _
    · rw [readAll_eq]
    · rw [readAll_eq]
    · rw [readAll_eq]

/-- C13. Transport errors propagate immediately.  If `net.Dial` fails with `e`,
the run returns `e` and its trace is the dial alone: no write, read, parse or
resolver query.  If a write or a read on the stream reports the error `e` (a
read that also delivered bytes, such as `05 00`, included), that operation is
the last event of the trace and the run returns exactly `e`. -/
theorem transport_errors_propagate (env : Env) (proxy t : String) :
    (∀ e, env.dial "tcp" proxy = Except.error e →
      dialSocks5 env proxy t =
        ⟨Outcome.ret none (some e), [Event.dial "tcp" proxy none (some e)]⟩) ∧
    (∀ i c b n e, (dialSocks5 env proxy t).trace[i]? = some (Event.write c b n (some e)) →
      (dialSocks5 env proxy t).trace.length = i + 1 ∧
      (dialSocks5 env proxy t).outcome = Outcome.ret (some c) (some e)) ∧
    (∀ i c cap d e, (dialSocks5 env proxy t).trace[i]? = some (Event.read c cap d (some e)) →
      (dialSocks5 env proxy t).trace.length = i + 1 ∧
      (dialSocks5 env proxy t).outcome = Outcome.ret (some c) (some e)) := by
  have hpath := dialSocks5_path env proxy t
  refine ⟨?_, ?_, ?_⟩
  · intro e he
    simp only [dialSocks5, he]
  · intro i c b n e h
    generalize dialSocks5 env proxy t = R at *
    cases hpath with
    | dialFail e hd => rcases i with _ | i <;> simp at h
    | writeFail c n e hd hw => rcases i with _ | _ | i <;> simp_all
    | readFail c n raw e hd hw hr => rcases i with _ | _ | _ | i <;> simp_all
    | rejected c n raw m hd hw hr hd2 hm => rcases i with _ | _ | _ | i <;> simp_all
    | detail c n raw r hd hw hr hacc hdet =>
      cases hdet with
      | parseFail e hp => rcases i with _ | _ | _ | _ | i <;> simp_all
      | lookupFail host port ips le e hp hl he =>
        rcases i with _ | _ | _ | _ | _ | i <;> simp_all
      | writeFail host port ips b0 b1 b2 b3 n2 e hp hl hip hw2 =>
        rcases i with _ | _ | _ | _ | _ | _ | i <;> simp_all
      | readFail host port ips b0 b1 b2 b3 n2 raw2 e hp hl hip hw2 hr2 =>
        rcases i with _ | _ | _ | _ | _ | _ | _ | i <;> simp_all
      | replied host port ips b0 b1 b2 b3 n2 raw2 err hp hl hip hw2 hr2 herr =>
        rcases i with _ | _ | _ | _ | _ | _ | _ | i <;> simp_all
  · intro i c cap d e h
    generalize dialSocks5 env proxy t = R at *
    cases hpath with
    | dialFail e hd => rcases i with _ | i <;> simp at h
    | writeFail c n e hd hw => rcases i with _ | _ | i <;> simp_all
    | readFail c n raw e hd hw hr => rcases i with _ | _ | _ | i <;> simp_all
    | rejected c n raw m hd hw hr hd2 hm => rcases i with _ | _ | _ | i <;> simp_all
    | detail c n raw r hd hw hr hacc hdet =>
      cases hdet with
      | parseFail e hp => rcases i with _ | _ | _ | _ | i <;> simp_all
      | lookupFail host port ips le e hp hl he =>
        rcases i with _ | _ | _ | _ | _ | i <;> simp_all
      | writeFail host port ips b0 b1 b2 b3 n2 e hp hl hip hw2 =>
        rcases i with _ | _ | _ | _ | _ | _ | i <;> simp_all
      | readFail host port ips b0 b1 b2 b3 n2 raw2 e hp hl hip hw2 hr2 =>
        rcases i with _ | _ | _ | _ | _ | _ | _ | i <;> simp_all
      | replied host port ips b0 b1 b2 b3 n2 raw2 err hp hl hip hw2 hr2 herr =>
        rcases i with _ | _ | _ | _ | _ | _ | _ | i <;> simp_all

theorem transport_errors_propagate_witness :
    (dialSocks5 (failEnv 1 [5, 0] (GoError.other 104)) "127.0.0.1:1080"
      "example.com:443").trace.length = 2 + 1 ∧
    (dialSocks5 (failEnv 1 [5, 0] (GoError.other 104)) "127.0.0.1:1080"
      "example.com:443").outcome = Outcome.ret (some 7) (some (GoError.other 104)) :=
  (transport_errors_propagate (failEnv 1 [5, 0] (GoError.other 104)) "127.0.0.1:1080"
    "example.com:443").2.2 2 7 1024 [5, 0] (GoError.other 104)
    (by set_option maxRecDepth 100000 in decide)

/-- C14. Negotiation fall-through.  The run in `env` reads, without error, a
negotiation reply `r` of the wrong length or of the wrong version.  `env2` is a
world that differs only in the reply: same dial, same first write, first reply
`05 00`, and from then on the same answers as `env`.  Then the run in `env` is
not aborted: it goes on to parse the target, and its outcome and everything it
does after the first read (resolver query, CONNECT bytes, second read) are
those of the run in `env2`.  Moreover, in every run that returns "Server does
not support Socks 5." or "Server does not respond properly.", the error was not
the one assigned for the negotiation reply: the outside world reported that
very value in the last call, or, for the second message, line 110 created it
after a CONNECT reply of wrong length. -/
theorem negotiation_fall_through (env env2 : Env) (proxy t : String) (r : List Nat)
    (hr : (readsOf (dialSocks5 env proxy t).trace)[0]? = some (r, none))
    (hbad : r.length ≠ 2 ∨ (r.length = 2 ∧ r[0]? ≠ some 5))
    (hd2 : env2.dial "tcp" proxy = env.dial "tcp" proxy)
    (hw2 : ∀ c, env2.write [Event.dial "tcp" proxy (some c) none] c [5, 1, 0] =
      env.write [Event.dial "tcp" proxy (some c) none] c [5, 1, 0])
    (hr2 : (readsOf (dialSocks5 env2 proxy t).trace)[0]? = some ([5, 0], none))
    (hwA : ∀ c n s b,
      env2.write ([Event.dial "tcp" proxy (some c) none, Event.write c [5, 1, 0] n none,
        Event.read c 1024 [5, 0] none] ++ s) c b =
      env.write ([Event.dial "tcp" proxy (some c) none, Event.write c [5, 1, 0] n none,
        Event.read c 1024 r none] ++ s) c b)
    (hrA : ∀ c n s k,
      env2.read ([Event.dial "tcp" proxy (some c) none, Event.write c [5, 1, 0] n none,
        Event.read c 1024 [5, 0] none] ++ s) c k =
      env.read ([Event.dial "tcp" proxy (some c) none, Event.write c [5, 1, 0] n none,
        Event.read c 1024 r none] ++ s) c k)
    (hlA : ∀ c n s h,
      env2.lookupIP ([Event.dial "tcp" proxy (some c) none, Event.write c [5, 1, 0] n none,
        Event.read c 1024 [5, 0] none] ++ s) h =
      env.lookupIP ([Event.dial "tcp" proxy (some c) none, Event.write c [5, 1, 0] n none,
        Event.read c 1024 r none] ++ s) h) :
    (∃ c n o s,
      dialSocks5 env proxy t =
        ⟨o, [Event.dial "tcp" proxy (some c) none, Event.write c [5, 1, 0] n none,
          Event.read c 1024 r none] ++ Event.parse t :: s⟩ ∧
      dialSocks5 env2 proxy t =
        ⟨o, [Event.dial "tcp" proxy (some c) none, Event.write c [5, 1, 0] n none,
          Event.read c 1024 [5, 0] none] ++ Event.parse t :: s⟩) ∧
    (∀ (env3 : Env) (proxy3 t3 : String) (c3 : Option Conn),
      ((dialSocks5 env3 proxy3 t3).outcome =
          Outcome.ret c3 (some (GoError.errorsNew "Server does not support Socks 5.")) →
        ∃ ev, (dialSocks5 env3 proxy3 t3).trace.getLast? = some ev ∧
          ev.err = some (GoError.errorsNew "Server does not support Socks 5.")) ∧
      ((dialSocks5 env3 proxy3 t3).outcome =
          Outcome.ret c3 (some (GoError.errorsNew "Server does not respond properly.")) →
        (∃ ev, (dialSocks5 env3 proxy3 t3).trace.getLast? = some ev ∧
          ev.err = some (GoError.errorsNew "Server does not respond properly.")) ∨
        (∃ d, (readsOf (dialSocks5 env3 proxy3 t3).trace)[1]? = some (d, none) ∧
          d.length ≠ 10))) := by
  refine ⟨?_, fun env3 proxy3 t3 c3 => negotiation_errors_provenance env3 proxy3 t3 c3⟩
  have hpath := dialSocks5_path env proxy t
  have hpath2 := dialSocks5_path env2 proxy t
  generalize dialSocks5 env proxy t = R at *
  generalize dialSocks5 env2 proxy t = R2 at *
  cases hpath with
  | dialFail e hd => simp [readsOf] at hr
  | writeFail c n e hd hw => simp [readsOf] at hr
  | readFail c n raw e hd hw hrd => simp [readsOf] at hr
  | rejected c n raw m hd hw hrd hd2' hm =>
    simp [readsOf] at hr
    subst hr
    rcases hbad with h1 | ⟨-, h2⟩
    · simp at h1
    · simp at h2
  | detail c n raw R' hd hw hrd hacc hdet =>
    obtain ⟨s1, hs1⟩ := DetailPath_trace _ _ _ _ _ hdet
    have hraw : raw.take 1024 = r := by
      rw [hs1] at hr
      simp [readsOf] at hr
      exact hr
    rw [hraw] at hdet
    have hR := detailRequest_of_path env c t none _ _ hdet
    cases hpath2 with
    | dialFail e hd' => simp [readsOf] at hr2
    | writeFail c' n' e hd' hw' => simp [readsOf] at hr2
    | readFail c' n' raw' e hd' hw' hrd' => simp [readsOf] at hr2
    | rejected c' n' raw' m hd' hw' hrd' hd2' hm =>
      simp [readsOf] at hr2
      exact absurd hr2 hm
    | detail c' n' raw' R2' hd' hw' hrd' hacc' hdet' =>
      rw [hd2, hd] at hd'
      cases hd'
      rw [hw2, hw] at hw'
      cases hw'
      obtain ⟨s2, hs2⟩ := DetailPath_trace _ _ _ _ _ hdet'
      have hraw' : raw'.take 1024 = [5, 0] := by
        rw [hs2] at hr2
        simp [readsOf] at hr2
        exact hr2
      rw [hraw'] at hdet'
      have hR2 := detailRequest_of_path env2 c t none _ _ hdet'
      obtain ⟨o, s, h1, h2⟩ := detailRequest_agree env env2 c t none none
        [Event.dial "tcp" proxy (some c) none, Event.write c [5, 1, 0] n none,
          Event.read c 1024 r none]
        [Event.dial "tcp" proxy (some c) none, Event.write c [5, 1, 0] n none,
          Event.read c 1024 [5, 0] none]
        (fun s b => hwA c n s b) (fun s k => hrA c n s k) (fun s h => hlA c n s h)
      exact ⟨c, n, o, s, hR.symm.trans h1, hR2.symm.trans h2⟩

theorem negotiation_fall_through_witness :
    ∃ c n o s,
      dialSocks5 (scriptEnv [4, 0] [5, 0, 0, 1, 0, 0, 0, 0, 0, 0] [[93, 184, 216, 34]])
          "127.0.0.1:1080" "example.com:443" =
        ⟨o, [Event.dial "tcp" "127.0.0.1:1080" (some c) none, Event.write c [5, 1, 0] n none,
          Event.read c 1024 [4, 0] none] ++ Event.parse "example.com:443" :: s⟩ ∧
      dialSocks5 okEnv "127.0.0.1:1080" "example.com:443" =
        ⟨o, [Event.dial "tcp" "127.0.0.1:1080" (some c) none, Event.write c [5, 1, 0] n none,
          Event.read c 1024 [5, 0] none] ++ Event.parse "example.com:443" :: s⟩ :=
  (negotiation_fall_through
    (scriptEnv [4, 0] [5, 0, 0, 1, 0, 0, 0, 0, 0, 0] [[93, 184, 216, 34]]) okEnv
    "127.0.0.1:1080" "example.com:443" [4, 0]
    (by set_option maxRecDepth 100000 in decide)
    (by decide) rfl (fun _ => rfl)
    (by rw [okEnv_trace]; decide)
    (fun _ _ _ _ => rfl)
    (fun c n s k => by simp [okEnv, scriptEnv, readsOf])
    (fun _ _ _ _ => rfl)).1

/-- C15. I/O trace invariant.  On every run the kinds of the events are a
prefix of dial, write, read, parse, lookup, write, read; so the operations on
the stream are a prefix of write, read, write, read, with at most two writes
and two reads.  Every read comes immediately after a write on the same
connection that reported no error, the first write is `05 01 00`, the resolver
is queried at most once and only after exactly one write and one read, and no
event is a `Close`. -/
theorem io_trace_invariant (env : Env) (proxy t : String) :
    (dialSocks5 env proxy t).trace.map Event.kind <+:
      [EventKind.dial, EventKind.write, EventKind.read, EventKind.parse, EventKind.lookupIP,
        EventKind.write, EventKind.read] ∧
    (streamOps (dialSocks5 env proxy t).trace).map Event.kind <+:
      [EventKind.write, EventKind.read, EventKind.write, EventKind.read] ∧
    (writesOf (dialSocks5 env proxy t).trace).length ≤ 2 ∧
    (readsOf (dialSocks5 env proxy t).trace).length ≤ 2 ∧
    (∀ i c cap d e, (dialSocks5 env proxy t).trace[i]? = some (Event.read c cap d e) →
      ∃ j b n, i = j + 1 ∧
        (dialSocks5 env proxy t).trace[j]? = some (Event.write c b n none)) ∧
    (∀ w, (writesOf (dialSocks5 env proxy t).trace)[0]? = some w → w = [5, 1, 0]) ∧
    (lookupsOf (dialSocks5 env proxy t).trace).length ≤ 1 ∧
    (∀ i h ips le, (dialSocks5 env proxy t).trace[i]? = some (Event.lookupIP h ips le) →
      (readsOf ((dialSocks5 env proxy t).trace.take i)).length = 1 ∧
      (writesOf ((dialSocks5 env proxy t).trace.take i)).length = 1) ∧
    (∀ ev ∈ (dialSocks5 env proxy t).trace, ev.kind ≠ EventKind.close) := by
  have hpath := dialSocks5_path env proxy t
  generalize dialSocks5 env proxy t = R at *
  cases hpath with
  | dialFail e hd =>
    refine ⟨by simp [Event.kind], by simp [streamOps], by simp [writesOf],
      by simp [readsOf], ?_, by simp [writesOf], by simp [lookupsOf], ?_,
      by simp [Event.kind]⟩
    · intro i c cap d e h
      rcases i with _ | i <;> simp at h
    · intro i h ips le hh
      rcases i with _ | i <;> simp at hh
  | writeFail c n e hd hw =>
    refine ⟨by simp [Event.kind], by simp [streamOps, Event.kind],
      by simp [writesOf], by simp [readsOf], ?_, by simp [writesOf], by simp [lookupsOf], ?_,
      by simp [Event.kind]⟩
    · intro i c cap d e h
      rcases i with _ | _ | i <;> simp at h
    · intro i h ips le hh
      rcases i with _ | _ | i <;> simp at hh
  | readFail c n raw e hd hw hr =>
    refine ⟨by simp [Event.kind], by simp [streamOps, Event.kind],
      by simp [writesOf], by simp [readsOf], ?_, by simp [writesOf], by simp [lookupsOf], ?_,
      by simp [Event.kind]⟩
    · intro i c cap d e h
      rcases i with _ | _ | _ | i <;> simp at h
      exact ⟨1, [5, 1, 0], n, rfl, by simp [h.1]⟩
    · intro i h ips le hh
      rcases i with _ | _ | _ | i <;> simp at hh
  | rejected c n raw m hd hw hr hd2 hm =>
    refine ⟨by simp [Event.kind], by simp [streamOps, Event.kind],
      by simp [writesOf], by simp [readsOf], ?_, by simp [writesOf], by simp [lookupsOf], ?_,
      by simp [Event.kind]⟩
    · intro i c cap d e h
      rcases i with _ | _ | _ | i <;> simp at h
      exact ⟨1, [5, 1, 0], n, rfl, by simp [h.1]⟩
    · intro i h ips le hh
      rcases i with _ | _ | _ | i <;> simp at hh
  | detail c n raw r hd hw hr hacc hdet =>
    cases hdet with
    | parseFail e hp =>
      refine ⟨by simp [Event.kind], by simp [streamOps, Event.kind],
        by simp [writesOf], by simp [readsOf], ?_, by simp [writesOf], by simp [lookupsOf], ?_,
        by simp [Event.kind]⟩
      · intro i c cap d e h
        rcases i with _ | _ | _ | _ | i <;> simp at h
        exact ⟨1, [5, 1, 0], n, rfl, by simp [h.1]⟩
      · intro i h ips le hh
        rcases i with _ | _ | _ | _ | i <;> simp at hh
    | lookupFail host port ips le e hp hl he =>
      refine ⟨by simp [Event.kind], by simp [streamOps, Event.kind],
        by simp [writesOf], by simp [readsOf], ?_, by simp [writesOf], by simp [lookupsOf], ?_,
        by simp [Event.kind]⟩
      · intro i c cap d e h
        rcases i with _ | _ | _ | _ | _ | i <;> simp at h
        exact ⟨1, [5, 1, 0], n, rfl, by simp [h.1]⟩
      · intro i h ips le hh
        rcases i with _ | _ | _ | _ | _ | i <;> simp at hh
        simp [readsOf, writesOf]
    | writeFail host port ips b0 b1 b2 b3 n2 e hp hl hip hw2 =>
      refine ⟨by simp [Event.kind], by simp [streamOps, Event.kind],
        by simp [writesOf], by simp [readsOf], ?_, by simp [writesOf], by simp [lookupsOf], ?_,
        by simp [Event.kind]⟩
      · intro i c cap d e h
        rcases i with _ | _ | _ | _ | _ | _ | i <;> simp at h
        exact ⟨1, [5, 1, 0], n, rfl, by simp [h.1]⟩
      · intro i h ips le hh
        rcases i with _ | _ | _ | _ | _ | _ | i <;> simp at hh
        simp [readsOf, writesOf]
    | readFail host port ips b0 b1 b2 b3 n2 raw2 e hp hl hip hw2 hr2 =>
      refine ⟨by simp [Event.kind], by simp [streamOps, Event.kind],
        by simp [writesOf], by simp [readsOf], ?_, by simp [writesOf], by simp [lookupsOf], ?_,
        by simp [Event.kind]⟩
      · intro i c cap d e h
        rcases i with _ | _ | _ | _ | _ | _ | _ | i <;> simp at h
        · exact ⟨1, [5, 1, 0], n, rfl, by simp [h.1]⟩
        · exact ⟨5, [5, 1, 0, 1, b0, b1, b2, b3, port / 256 % 256, port % 256], n2, rfl,
            by simp [h.1]⟩
      · intro i h ips le hh
        rcases i with _ | _ | _ | _ | _ | _ | _ | i <;> simp at hh
        simp [readsOf, writesOf]
    | replied host port ips b0 b1 b2 b3 n2 raw2 err hp hl hip hw2 hr2 herr =>
      refine ⟨by simp [Event.kind], by simp [streamOps, Event.kind],
        by simp [writesOf], by simp [readsOf], ?_, by simp [writesOf], by simp [lookupsOf], ?_,
        by simp [Event.kind]⟩
      · intro i c cap d e h
        rcases i with _ | _ | _ | _ | _ | _ | _ | i <;> simp at h
        · exact ⟨1, [5, 1, 0], n, rfl, by simp [h.1]⟩
        · exact ⟨5, [5, 1, 0, 1, b0, b1, b2, b3, port / 256 % 256, port % 256], n2, rfl,
            by simp [h.1]⟩
      · intro i h ips le hh
        rcases i with _ | _ | _ | _ | _ | _ | _ | i <;> simp at hh
        simp [readsOf, writesOf]

/-- C16. Index safety.  No run of `dialSocks5` panics, whatever the replies
(of any length, the empty one included) and the resolver answer, although an
index expression out of range does panic in the model; when `LookupIP4`
succeeds its address has exactly 4 bytes; and the count `n` by which `readAll`
slices its buffer is at most 1024 and at most the length of the buffer. -/
theorem index_safety (env : Env) (proxy t : String) :
    (dialSocks5 env proxy t).outcome ≠ Outcome.panic ∧
    (∀ (xs : List Nat) (i : Nat) (tr : List Event) (k : Nat → Run),
      xs.length ≤ i → index xs i tr k = ⟨Outcome.panic, tr⟩) ∧
    (∀ (tr : List Event) (host : String), (LookupIP4 env tr host).err = none →
      ∃ a0 a1 a2 a3, (LookupIP4 env tr host).ip = some [a0, a1, a2, a3]) ∧
    (∀ (tr : List Event) (conn : Conn),
      (connRead env tr conn (List.replicate 1024 0)).n ≤ 1024 ∧
      (connRead env tr conn (List.replicate 1024 0)).n ≤
        (connRead env tr conn (List.replicate 1024 0)).buf.length ∧
      (readAll env tr conn).resp.length ≤ 1024) := by
  refine ⟨?_, index_out_of_range, ?_, ?_⟩
  · have hpath := dialSocks5_path env proxy t
    generalize dialSocks5 env proxy t = R at *
    cases hpath with
    | dialFail e hd => simp
    | writeFail c n e hd hw => simp
    | readFail c n raw e hd hw hr => simp
    | rejected c n raw m hd hw hr hd2 hm => simp
    | detail c n raw r hd hw hr hacc hdet => cases hdet <;> simp
  · intro tr host h
    rcases hl : env.lookupIP tr host with ⟨ips, le⟩
    cases le with
    | some e => rw [LookupIP4_of_err env tr host ips e hl] at h; simp at h
    | none =>
      by_cases hne : ips = []
      · subst hne
        rw [LookupIP4_of_nil env tr host hl] at h; simp at h
      · cases hip : rangeTo4 ips with
        | none => rw [LookupIP4_of_none env tr host ips hl hne hip] at h; simp at h
        | some ip =>
          rw [LookupIP4_of_some env tr host ips ip hl hip]
          have h4 := rangeTo4_length ips ip hip
          match ip, h4 with
          | [a0, a1, a2, a3], _ => exact ⟨a0, a1, a2, a3, rfl⟩
  · intro tr conn
    refine ⟨?_, ?_, ?_⟩
    · rw [connRead_eq]
      simp only [List.length_replicate, List.length_take]
      exact Nat.min_le_left _ _
    · rw [connRead_eq]
      simp only [List.length_append]
      exact Nat.le_add_right _ _
    · rw [readAll_eq]
      simp only [List.length_take]
      exact Nat.min_le_left _ _

theorem index_safety_witness :
    (dialSocks5 (scriptEnv [] [5] [[93, 184, 216, 34]]) "127.0.0.1:1080"
      "example.com:443").outcome ≠ Outcome.panic :=
  (index_safety (scriptEnv [] [5] [[93, 184, 216, 34]]) "127.0.0.1:1080"
    "example.com:443").1

/-- C17. The function returned by `DialSocks5Proxy` ignores its first argument:
for any two network strings the runs are equal, and equal to the run of
`dialSocks5`; that run starts with `net.Dial("tcp", proxy)` and makes no other
dial. -/
theorem DialSocks5Proxy_ignores_network (env : Env) (proxy n1 n2 t : String) :
    DialSocks5Proxy env proxy n1 t = DialSocks5Proxy env proxy n2 t ∧
    DialSocks5Proxy env proxy n1 t = dialSocks5 env proxy t ∧
    DialSocks5Proxy env proxy n2 t = dialSocks5 env proxy t ∧
    (∃ c e, (dialSocks5 env proxy t).trace.head? = some (Event.dial "tcp" proxy c e)) ∧
    (∀ i net addr c e, (dialSocks5 env proxy t).trace[i]? = some (Event.dial net addr c e) →
      i = 0 ∧ net = "tcp" ∧ addr = proxy) := by
  refine ⟨rfl, rfl, rfl, ?_, ?_⟩
  · have hpath := dialSocks5_path env proxy t
    generalize dialSocks5 env proxy t = R at *
    cases hpath with
    | dialFail e hd => simp
    | writeFail c n e hd hw => simp
    | readFail c n raw e hd hw hr => simp
    | rejected c n raw m hd hw hr hd2 hm => simp
    | detail c n raw r hd hw hr hacc hdet => cases hdet <;> simp
  · intro i net addr c e h
    have hpath := dialSocks5_path env proxy t
    generalize dialSocks5 env proxy t = R at *
    cases hpath with
    | dialFail e hd => rcases i with _ | i <;> simp_all
    | writeFail c n e hd hw => rcases i with _ | _ | i <;> simp_all
    | readFail c n raw e hd hw hr => rcases i with _ | _ | _ | i <;> simp_all
    | rejected c n raw m hd hw hr hd2 hm => rcases i with _ | _ | _ | i <;> simp_all
    | detail c n raw r hd hw hr hacc hdet =>
      cases hdet with
      | parseFail e hp => rcases i with _ | _ | _ | _ | i <;> simp_all
      | lookupFail host port ips le e hp hl he =>
        rcases i with _ | _ | _ | _ | _ | i <;> simp_all
      | writeFail host port ips b0 b1 b2 b3 n2 e hp hl hip hw2 =>
        rcases i with _ | _ | _ | _ | _ | _ | i <;> simp_all
      | readFail host port ips b0 b1 b2 b3 n2 raw2 e hp hl hip hw2 hr2 =>
        rcases i with _ | _ | _ | _ | _ | _ | _ | i <;> simp_all
      | replied host port ips b0 b1 b2 b3 n2 raw2 err hp hl hip hw2 hr2 herr =>
        rcases i with _ | _ | _ | _ | _ | _ | _ | i <;> simp_all

end Gosocks
